import Mathlib

/-!
Verification of `notebooks/python/wofost_utils.py` (WOFOST ensemble
orchestration).  The module is embedded shallowly: pure computations become
Lean functions over `Rat` (Python floats; NaN-able quantities are
`Option Rat` with `none` for NaN), fallible code returns `Except Unit`,
and every external effect (file system, EarthEngine, HTTP, scipy sampling,
the WOFOST engine) is an oracle field of an `Env` record.  Each embedded
function additionally returns the list of `Event`s it performs, in program
order, so that caching / ordering / frame claims can be stated.
-/

set_option linter.unusedVariables false
set_option maxRecDepth 100000

namespace WofostUtils

/-- Opaque handle for the contents of a `.npz` archive loaded by `np.load`
(the archive contents are never inspected by this module). -/
structure NpzData where
  raw : Nat
deriving DecidableEq, Repr

/-- Opaque handle for the dataframe produced by a WOFOST simulation run
(`run_wofost` returns it; this module never inspects it). -/
structure SimResult where
  raw : Nat
deriving DecidableEq, Repr, Inhabited

/-- A frozen scipy.stats distribution object, by its constructor call:
`ss.uniform(loc, scale)` or `ss.truncnorm(a, b, loc=loc, scale=scale)`. -/
inductive Dist where
  | uniform (loc scale : Rat)
  | truncnorm (a b loc scale : Rat)
deriving DecidableEq, Repr

/-- A Python value stored in an ensemble-parameter dictionary: either a
scalar float or a list of floats (the AMAXTB table). -/
inductive PVal where
  | num (q : Rat)
  | table (l : List Rat)
deriving DecidableEq, Repr

/-- The externally visible operations the module performs, in program
order.  `amgtWrite` is the scratch agromanagement file written by every
simulation run; `csvWrite` is the meteo-CSV cache write. -/
inductive Event where
  | existsCheck (path : String)
  | npzLoad (path : String)
  | httpGet (url : String)
  | eeDownload (band : String)
  | csvWrite (path : String)
  | paramRead (path : String)
  | rvsDraw (code : String) (n : Nat)
  | amgtWrite (path : String) (content : String)
deriving DecidableEq, Repr

/-- The path a given event writes to, if it writes a file at all. -/
def writeTarget : Event → Option String
  | .csvWrite p => some p
  | .amgtWrite p _ => some p
  | _ => none

/-- True for events that contact a remote service (HTTP or EarthEngine). -/
def isNetwork : Event → Bool
  | .httpGet _ => true
  | .eeDownload _ => true
  | _ => false

/-- A Gregorian calendar date (Python `datetime.date`). -/
structure DateD where
  y : Int
  m : Nat
  d : Nat
deriving DecidableEq, Repr

/-- Decidable equality for `Except` results (needed to evaluate the
embedded functions on concrete inputs). -/
instance {e a : Type} [DecidableEq e] [DecidableEq a] :
    DecidableEq (Except e a) := fun x y =>
  match x, y with
  | .error e1, .error e2 =>
    if h : e1 = e2 then isTrue (by rw [h])
    else isFalse (fun hc => h (by injection hc))
  | .error _, .ok _ => isFalse (fun hc => Except.noConfusion hc)
  | .ok _, .error _ => isFalse (fun hc => Except.noConfusion hc)
  | .ok a1, .ok a2 =>
    if h : a1 = a2 then isTrue (by rw [h])
    else isFalse (fun hc => h (by injection hc))

/-! ### Character-level string helpers (Python str methods) -/

/-- Whether the first list is an initial run of the second. -/
def leadMatch : List Char → List Char → Bool
  | [], _ => true
  | _ :: _, [] => false
  | a :: as, b :: bs => a == b && leadMatch as bs

/-- Python `s.endswith(suff)`. -/
def pyEndsWith (s suff : String) : Bool :=
  leadMatch suff.toList.reverse s.toList.reverse

/-- Splitting a character list at every occurrence of `sep` (no
collapsing of empty groups). -/
def splitChars (sep : Char) : List Char → List (List Char)
  | [] => [[]]
  | c :: cs =>
    let r := splitChars sep cs
    if c = sep then [] :: r
    else
      match r with
      | [] => [[c]]
      | g :: gs => (c :: g) :: gs

/-- Python `s.split(sep)` for a one-character separator. -/
def pySplit (sep : Char) (s : String) : List String :=
  (splitChars sep s.toList).map (fun l => String.mk l)

/-! ### Python dict operations (insertion-ordered association lists) -/

/-- Python `d[k]` lookup (first — and by construction only — entry). -/
def dget (d : List (String × α)) (k : String) : Option α :=
  (d.find? (fun p => p.1 == k)).map (fun p => p.2)

/-- Python `d[k] = v`: replace in place if present, else append. -/
def dinsert (k : String) (v : α) (d : List (String × α)) : List (String × α) :=
  if d.any (fun p => p.1 == k) then
    d.map (fun p => if p.1 == k then (k, v) else p)
  else d ++ [(k, v)]

/-- Build a dict by inserting the pairs in order (dict comprehension /
`dict.update` / `dict(zip(...))` semantics: a later duplicate key wins). -/
def buildPairs (ps : List (String × α)) (d : List (String × α)) :
    List (String × α) :=
  ps.foldl (fun acc p => dinsert p.1 p.2 acc) d

/-- Python `d.pop(k)` key removal (the lookup part is `dget`). -/
def dremove (d : List (String × α)) (k : String) : List (String × α) :=
  d.eraseP (fun p => p.1 == k)

/-! ### NaN-aware reductions (numpy semantics; `none` is NaN) -/

/-- Embeds `np.nansum`: sum of the non-NaN entries; 0 when all are NaN. -/
def nansum (l : List (Option Rat)) : Rat :=
  (l.filterMap id).sum

/-- Embeds `np.nanmax`: max of the non-NaN entries; NaN when all are NaN. -/
def nanmaxOpt (l : List (Option Rat)) : Option Rat :=
  (l.filterMap id).max?

/-- Embeds `np.nanmin`: min of the non-NaN entries; NaN when all are NaN. -/
def nanminOpt (l : List (Option Rat)) : Option Rat :=
  (l.filterMap id).min?

/-- Embeds `np.nanmean`: mean of the non-NaN entries; NaN when all are NaN. -/
def nanmean (l : List (Option Rat)) : Option Rat :=
  let v := l.filterMap id
  if v.isEmpty then none else some (v.sum / (v.length : Rat))

/-- Row-major `np.reshape` into `n` rows of `k` columns: successive
chunks of `k` elements. -/
def chunkRows (k : Nat) : Nat → List α → List (List α)
  | 0, _ => []
  | n + 1, l => l.take k :: chunkRows k n (l.drop k)

/-! ### Calendar (Python `datetime`, proleptic Gregorian) -/

/-- Gregorian leap-year rule (what `datetime` implements). -/
def isLeap (y : Int) : Bool :=
  (y % 4 == 0 && y % 100 != 0) || y % 400 == 0

/-- Embeds `(datetime(year+1,1,1) - datetime(year,1,1)).days`. -/
def totalDays (y : Int) : Nat :=
  if isLeap y then 366 else 365

/-- Month lengths of year `y`. -/
def monthLengths (y : Int) : List Nat :=
  [31, if isLeap y then 29 else 28, 31, 30, 31, 30, 31, 31, 30, 31, 30, 31]

/-- Month (1-based) and day-of-month of the 0-based day-of-year `d`,
given the month-length table. -/
def mdOfYday : List Nat → Nat → Nat × Nat
  | [], d => (1, d + 1)
  | m :: ms, d =>
    if d < m then (1, d + 1)
    else
      let r := mdOfYday ms (d - m)
      (r.1 + 1, r.2)

/-- Zero-pad a natural to two digits (`%02d`). -/
def pad2 (n : Nat) : String :=
  if n < 10 then "0" ++ toString n else toString n

/-- Zero-pad a natural to four digits (`%Y` on years in range). -/
def pad4 (n : Nat) : String :=
  if n < 10 then "000" ++ toString n
  else if n < 100 then "00" ++ toString n
  else if n < 1000 then "0" ++ toString n
  else toString n

/-- Embeds `date.strftime("%Y%m%d")` for the 0-based day `i` of year `y`. -/
def dateStrCompact (y : Int) (i : Nat) : String :=
  let md := mdOfYday (monthLengths y) i
  pad4 y.toNat ++ pad2 md.1 ++ pad2 md.2

/-- Embeds `str(date)` (ISO `%Y-%m-%d`) for the 0-based day `i` of year `y`. -/
def isoDate (y : Int) (i : Nat) : String :=
  let md := mdOfYday (monthLengths y) i
  pad4 y.toNat ++ "-" ++ pad2 md.1 ++ "-" ++ pad2 md.2

/-- Embeds `str(date)` for a `DateD`. -/
def showDate (d : DateD) : String :=
  pad4 d.y.toNat ++ "-" ++ pad2 d.m ++ "-" ++ pad2 d.d

/-- The key `"%sT%02d_%s" % (date_str, hour, parameter)` of the merged
`getInfo` dictionary. -/
def eeHeader (y : Int) (i : Nat) (hour : Nat) (param : String) : String :=
  dateStrCompact y i ++ "T" ++ pad2 hour ++ "_" ++ param

/-- Embeds `datetime.strptime(f"{year}/{doy}", "%Y/%j").date()`: valid for
1 ≤ doy ≤ number of days in the year, otherwise a ValueError. -/
def dateOfDoy (y : Int) (doy : Int) : Option DateD :=
  if 1 ≤ doy ∧ doy ≤ (totalDays y : Int) then
    let md := mdOfYday (monthLengths y) (doy - 1).toNat
    some ⟨y, md.1, md.2⟩
  else none

/-- Embeds `int(np.round(q))`: round half to even. -/
def roundHalfEven (q : Rat) : Int :=
  let f := ⌊q⌋
  let r := q - (f : Rat)
  if r < 1 / 2 then f
  else if 1 / 2 < r then f + 1
  else if f % 2 == 0 then f else f + 1

/-- Embeds `f"{year:4d}"`: left-pad with spaces to width 4. -/
def fmt4d (y : Int) : String :=
  let s := toString y
  String.mk (List.replicate (4 - s.length) ' ') ++ s

/-- Embeds `pathlib.Path(a) / b` for the folder forms used in this module
("data/", "./"): `Path` normalizes away a leading "./". -/
def pathJoin (a b : String) : String :=
  if a = "" ∨ a = "./" then b
  else if pyEndsWith a "/" then a ++ b
  else a ++ "/" ++ b

/-! ### The external world -/

/-- A row of the parameter-prior CSV
(`data/par_prior_maize_tropical-C.csv`), with the `#` already stripped
from the column names by `define_prior_distribution`; `distribution` is
the `Distribution` cell, `none` for a missing (NaN) cell — after
`.astype(str)` a missing cell reads back as the string "nan", which is
exactly what the source filters on. -/
structure ParamRow where
  code : String
  xvalue : Rat
  yvalue : Rat
  minv : Rat
  maxv : Rat
  stddev : Rat
  distribution : Option String
  variation : String
  scale : Rat
deriving DecidableEq, Repr

/-- The inputs handed to the external WOFOST engine by one simulation:
crop/soil CABO files, site data, parameter overrides, the agromanagement
calendar and the weather CSV. -/
structure SimInputs where
  cropPath : String
  soilPath : String
  rdmsol : Rat
  wav : Rat
  co2 : Rat
  overrides : List (String × PVal)
  cropName : String
  varietyName : String
  cropStart : DateD
  cropEnd : DateD
  maxDuration : Nat
  meteoPath : String
deriving DecidableEq, Repr

/-- Oracles for everything outside this module: the file system, the
JASMIN listing page, EarthEngine downloads, Python float formatting,
scipy sampling and the WOFOST engine.  `eeData` is the merged
`getInfo()` dictionary: `none` = key absent, `some none` = key present
with value `None`. -/
structure Env where
  fileExists : String → Bool
  npzLoad : String → NpzData
  anchors : List String
  jasminDownload : String → NpzData
  parseInt : String → Option Int
  parseFloat : String → Option Rat
  eeData : String → Option (Option Rat)
  exp : Rat → Rat
  sqrt : Rat → Rat
  fmt2 : Rat → String
  fstr : Rat → String
  render : Rat → String
  paramRows : String → List ParamRow
  rvs : Dist → Nat → List Rat
  runPP : SimInputs → SimResult
  runWLP : SimInputs → SimResult

/-! ### get_ensemble_jasmin -/

/-- The hard-coded default `base_url` of `get_ensemble_jasmin`. -/
def jasminBase : String :=
  "https://gws-access.jasmin.ac.uk/" ++ "public/odanceo/ghana_ensembles/"

/-- One iteration of the matching loop: split the link on "_" into
exactly five fields (`ValueError` otherwise), parse the second as int and
the third and fourth as float (`ValueError` on failure), and compare with
the requested year, lon and lat. -/
def linkMatches (env : Env) (year : Int) (lat lon : Rat) (link : String) :
    Except Unit Bool :=
  match pySplit '_' link with
  | [_, fyear, flon, flat, _fsize] =>
    match env.parseInt fyear, env.parseFloat flon, env.parseFloat flat with
    | some iy, some qlon, some qlat =>
      .ok (year == iy && lat == qlat && lon == qlon)
    | _, _, _ => .error ()
  | _ => .error ()

/-- The `for link in links` loop: first matching link, `None` if the loop
finishes without a match, an exception if a link fails to parse before a
match is found. -/
def findLink (env : Env) (year : Int) (lat lon : Rat) :
    List String → Except Unit (Option String)
  | [] => .ok none
  | link :: rest =>
    match linkMatches env year lat lon link with
    | .error e => .error e
    | .ok true => .ok (some link)
    | .ok false => findLink env year lat lon rest

/-- Embeds `get_ensemble_jasmin(year, lat, lon, base_url)`: fetch the listing
page, keep the anchor hrefs ending in ".npz", return the downloaded
contents of the first matching link, or `None`. -/
def get_ensemble_jasmin (env : Env) (year : Int) (lat lon : Rat)
    (base_url : String) : Except Unit (Option NpzData × List Event) :=
  let links := env.anchors.filter (fun a => pyEndsWith a ".npz")
  match findLink env year lat lon links with
  | .error e => .error e
  | .ok none => .ok (none, [.httpGet base_url])
  | .ok (some link) =>
    let url := base_url ++ "/" ++ link
    .ok (some (env.jasminDownload url), [.httpGet base_url, .httpGet url])

/-! ### retry / download_image_over_region -/

/-- The `retry` decorator loop at attempt `i` with `tries` attempts left:
return the first success; on failure sleep the current delay, multiply it
by `backoff` and go round; re-raise the last failure.  Returns the result
together with the list of delays slept.  (`tries = 0` is never used by
this module; the decorator is applied with `tries=10`.) -/
def retryExec (f : Nat → Except ε α) (backoff : Nat) :
    Nat → Nat → Nat → Except ε α × List Nat
  | i, 0, _ => (f i, [])
  | i, 1, _ => (f i, [])
  | i, t + 2, delay =>
    match f i with
    | .ok a => (.ok a, [])
    | .error _ =>
      let r := retryExec f backoff (i + 1) (t + 1) (delay * backoff)
      (r.1, delay :: r.2)

/-- Embeds `@retry(tries=10, delay=1, backoff=2)` applied to
`image.reduceRegion(...).getInfo()`; `f k` is the outcome of the k-th
attempt of that single network call. -/
def download_image_over_region (f : Nat → Except ε α) :
    Except ε α × List Nat :=
  retryExec f 2 0 10 1

/-! ### get_era5_gee: the daily meteo dataframe -/

/-- Embeds `calculate_hum(tdew)`: vapour pressure from a dewpoint temperature in
Kelvin (`np.exp` is the oracle `env.exp`). -/
def calculate_hum (env : Env) (tdew : Rat) : Rat :=
  let t := tdew - 273.15
  0.6108 * env.exp ((17.27 * t) / (t + 237.3))

/-- The six hourly band names requested from EarthEngine, in order. -/
def era5Parameters : List String :=
  ["dewpoint_temperature_2m", "temperature_2m",
   "surface_solar_radiation_downwards_hourly", "total_precipitation_hourly",
   "u_component_of_wind_10m", "v_component_of_wind_10m"]

/-- Embeds `transforms = dict(zip(parameters, [...]))`: the per-band unit
conversion applied to each hourly value. -/
def era5Transform (env : Env) (p : String) : Rat → Rat :=
  if p = "dewpoint_temperature_2m" then calculate_hum env
  else if p = "temperature_2m" then fun v => v - 273.15
  else if p = "surface_solar_radiation_downwards_hourly" then fun v => v / 1000
  else if p = "total_precipitation_hourly" then fun v => v * 1000
  else fun v => v

/-- The loop body: look the hourly key up in the merged `getInfo`
dictionary; a missing key or a `None` value is NaN, otherwise the
transform is applied. -/
def lookupHour (env : Env) (tf : Rat → Rat) (hdr : String) : Option Rat :=
  match env.eeData hdr with
  | some (some v) => some (tf v)
  | some none => none
  | none => none

/-- The 24 hourly values of band `p` on the 0-based day `i` of year `y`
(the inner `for hour in range(24)` loop). -/
def dayHours (env : Env) (y : Int) (i : Nat) (p : String) :
    List (Option Rat) :=
  (List.range 24).map
    (fun h => lookupHour env (era5Transform env p) (eeHeader y i h p))

/-- The flat per-band series (`vals`): the nested
`for i in range(total_days): for hour in range(24)` loop. -/
def hourlySeries (env : Env) (y : Int) (p : String) : List (Option Rat) :=
  (List.range (totalDays y)).flatMap (fun i => dayHours env y i p)

/-- Embeds `para_vals[j] = np.array(vals).reshape(total_days, 24)` for band
`p`. -/
def bandDays (env : Env) (y : Int) (p : String) : List (List (Option Rat)) :=
  chunkRows 24 (totalDays y) (hourlySeries env y p)

/-- One hourly wind speed `np.sqrt(u ** 2 + v ** 2)`: NaN if either
component is NaN. -/
def windHour (env : Env) : Option Rat → Option Rat → Option Rat
  | some a, some b => some (env.sqrt (a * a + b * b))
  | _, _ => none

/-- The daily dataframe `df` built at the end of `get_era5_gee`
(column-oriented, as `pd.DataFrame(dict(zip(keys, vals)))`). -/
structure MeteoDf where
  day : List String
  irrad : List Rat
  tmin : List (Option Rat)
  tmax : List (Option Rat)
  vap : List (Option Rat)
  wind : List (Option Rat)
  rain : List Rat
deriving DecidableEq, Repr

/-- Lines 272-292 of the source: the per-day aggregations and the
dataframe assembly.  `DAY` is `pd.date_range(year-01-01, year-12-31)`. -/
def era5_df (env : Env) (y : Int) : MeteoDf :=
  { day := (List.range (totalDays y)).map (fun i => isoDate y i)
    vap := (bandDays env y "dewpoint_temperature_2m").map
      (fun l => (nanmean l).map (fun x => max x 0))
    tmax := (bandDays env y "temperature_2m").map nanmaxOpt
    tmin := (bandDays env y "temperature_2m").map nanminOpt
    irrad := (bandDays env y "surface_solar_radiation_downwards_hourly").map
      (fun l => max (nansum l) 0)
    rain := (bandDays env y "total_precipitation_hourly").map
      (fun l => max (nansum l) 0)
    wind := List.zipWith
      (fun du dv => nanmean (List.zipWith (windHour env) du dv))
      (bandDays env y "u_component_of_wind_10m")
      (bandDays env y "v_component_of_wind_10m") }

/-! ### write_pcse_csv -/

/-- Python float * `np.nan`: always NaN (`variables["IRRAD"] * np.nan`). -/
def mulNaN (q : Rat) : Option Rat :=
  none

/-- Rendering of a dataframe cell by `to_csv(na_rep="nan")`: a missing
value is written "nan". -/
def renderCell (env : Env) : Option Rat → String
  | some v => env.render v
  | none => "nan"

/-- Embeds `f"{elev}"` where `elev` may be a float or Python `None`. -/
def pyOptStr (env : Env) : Option Rat → String
  | some v => env.fstr v
  | none => "None"

/-- The lines of the raw `hdr_chunk` f-string (before `dedent`); the
final line is the four spaces of indentation preceding the closing
triple quote. -/
def hdrLines (env : Env) (lon lat : Rat) (elev : Option Rat)
    (c1 c2 : Rat) : List String :=
  ["Country     = \x27somewhere\x27",
   "Station     = \x27anything\x27",
   "Description = \x27Reanalysis data\x27",
   "Source      = \x27ERA5\x27",
   "Contact     = \x27J Gomez-Dans\x27",
   "Longitude = " ++ (env.fstr lon ++ "; Latitude = " ++ env.fstr lat ++
     "; Elevation = " ++ pyOptStr env elev ++ "; AngstromA = " ++
     env.fstr c1 ++ "; AngstromB = " ++ env.fstr c2 ++
     "; HasSunshine = False"),
   "## Daily weather observations (missing values are NaN)",
   "    "]

/-- The leading-whitespace run of a line (spaces only; the header
contains no tabs). -/
def leadWS (s : String) : List Char :=
  s.toList.takeWhile (fun c => c = ' ')

/-- Longest common run shared by two leading-whitespace runs. -/
def commonLead : List Char → List Char → List Char
  | [], _ => []
  | _ :: _, [] => []
  | a :: as, b :: bs => if a = b then a :: commonLead as bs else []

/-- The common leading-whitespace margin of a list of (non-empty)
lines. -/
def marginOf : List String → List Char
  | [] => []
  | l :: rest => rest.foldl (fun acc s => commonLead acc (leadWS s)) (leadWS l)

/-- Embeds `textwrap.dedent` on a list of lines: normalize whitespace-only
lines to empty, compute the common leading-whitespace margin of the
remaining lines, and strip it. -/
def pyDedentLines (ls : List String) : List String :=
  let norm := ls.map
    (fun l => if l ≠ "" ∧ l.toList.all (fun c => c = ' ') then "" else l)
  let margin := marginOf (norm.filter (fun l => l ≠ ""))
  norm.map
    (fun l => if l = "" then "" else String.mk (l.toList.drop margin.length))

/-- The comma-separated field list of row `i` written by `to_csv` after
the `SNOWDEPATH` column (IRRAD times NaN) is appended and the columns are
renamed to DAY, IRRAD, TMIN, TMAX, VAP, WIND, RAIN, SNOWDEPTH. -/
def rowFields (env : Env) (v : MeteoDf) (i : Nat) : List String :=
  [v.day[i]!,
   env.render (v.irrad[i]!),
   renderCell env (v.tmin[i]!),
   renderCell env (v.tmax[i]!),
   renderCell env (v.vap[i]!),
   renderCell env (v.wind[i]!),
   env.render (v.rain[i]!),
   renderCell env (mulNaN (v.irrad[i]!))]

/-- The header line and rows written by
`variables.to_csv(fp, index=False, na_rep="nan")`. -/
def csvTable (env : Env) (v : MeteoDf) : String :=
  "DAY,IRRAD,TMIN,TMAX,VAP,WIND,RAIN,SNOWDEPTH\n" ++
  String.join ((List.range v.day.length).map
    (fun i => String.intercalate "," (rowFields env v i) ++ "\n"))

/-- Join lines with newlines (the inverse of the line split implicit in
the multi-line f-string literal). -/
def joinLines : List String → String
  | [] => ""
  | [l] => l
  | l :: ls => l ++ "\n" ++ joinLines ls

/-- Embeds `write_pcse_csv(variables, elev, lon, lat, csv_file, c1, c2)`:
returns the written file content and the path handed back to the caller
(the defaults in the source are `c1 = -0.18`, `c2 = -0.55`). -/
def write_pcse_csv (env : Env) (vdf : MeteoDf) (elev : Option Rat)
    (lon lat : Rat) (csv_file : String) (c1 c2 : Rat) : String × String :=
  let hdr_chunk :=
    joinLines (pyDedentLines (hdrLines env lon lat elev c1 c2))
  (hdr_chunk ++ csvTable env vdf, csv_file)

/-! ### get_era5_gee -/

/-- The destination file
`f"{product}_{country}_{lat_str}_{lon_str}_{year}.csv"` under
`dest_folder`. -/
def era5CsvName (env : Env) (dest : String) (lat lon : Rat) (y : Int) :
    String :=
  pathJoin dest
    ("ERA5_Somewhere_" ++ env.fmt2 lat ++ "_" ++ env.fmt2 lon ++ "_" ++
      toString y ++ ".csv")

/-- Embeds `get_era5_gee(year, lat, lon, dest_folder)`: return the cached CSV
path if it exists; otherwise download the six hourly bands plus the
GTOPO30 elevation, aggregate to a daily dataframe, write the
PCSE-friendly CSV (with the default Angstrom coefficients -0.18 and
-0.55) and return its path.  A missing "elevation" key in the merged
`getInfo` dictionary is a KeyError. -/
def get_era5_gee (env : Env) (year : Int) (lat lon : Rat)
    (dest_folder : String) : Except Unit (String × List Event) :=
  let csv_file := era5CsvName env dest_folder lat lon year
  if env.fileExists csv_file then .ok (csv_file, [.existsCheck csv_file])
  else
    let dls := era5Parameters.map Event.eeDownload ++ [.eeDownload "elevation"]
    match env.eeData "elevation" with
    | none => .error ()
    | some elev =>
      let df := era5_df env year
      let w := write_pcse_csv env df elev lon lat csv_file (-0.18) (-0.55)
      .ok (w.2, [.existsCheck csv_file] ++ dls ++ [.csvWrite csv_file])

/-! ### define_prior_distribution -/

/-- Embeds `df.columns.str.replace("#", "")` on the raw CSV column names. -/
def cleanColumns (cols : List String) : List String :=
  cols.map (fun c => c.replace "#" "")

/-- Embeds `ss.uniform(k.Min, k.Max - k.Min)`. -/
def uniformOf (r : ParamRow) : Dist :=
  .uniform r.minv (r.maxv - r.minv)

/-- Embeds `ss.truncnorm((Min - Y) / Std, (Max - Y) / Std, loc=Y, scale=Std)`. -/
def truncnormOf (r : ParamRow) : Dist :=
  .truncnorm ((r.minv - r.yvalue) / r.stddev) ((r.maxv - r.yvalue) / r.stddev)
    r.yvalue r.stddev

/-- Embeds `define_prior_distribution(fname)` on the parsed rows of the
parameter CSV: the prior dictionary (uniform rows first, then updated
with the Gaussian rows), the parameter list, the x-values, the y-values,
the Variation dict and the Scale dict, all in CSV row order. -/
def define_prior_distribution (rows : List ParamRow) :
    List (String × Dist) × List String × List Rat × List Rat ×
      List (String × String) × List (String × Rat) :=
  let uniPairs := (rows.filter (fun r => r.distribution == none)).map
    (fun r => (r.code, uniformOf r))
  let gaussPairs :=
    (rows.filter (fun r => r.distribution == some "Gaussian")).map
      (fun r => (r.code, truncnormOf r))
  let prior_dist := buildPairs gaussPairs (buildPairs uniPairs [])
  let param_list := rows.map (fun r => r.code)
  let param_xvalue := rows.map (fun r => r.xvalue)
  let param_yvalue := rows.map (fun r => r.yvalue)
  let param_type := buildPairs (rows.map (fun r => (r.code, r.variation))) []
  let param_scale := buildPairs (rows.map (fun r => (r.code, r.scale))) []
  (prior_dist, param_list, param_xvalue, param_yvalue, param_type,
    param_scale)

/-! ### Spec-side distribution descriptions (for the refinement claim) -/

/-- Modelled from the spec words: "a uniform distribution on
[Min, Max]", in scipy encoding (loc = lo, scale = hi - lo). -/
def specUniformOn (lo hi : Rat) : Dist :=
  .uniform lo (hi - lo)

/-- Modelled from the spec words: "a normal distribution with mean
`mean` and standard deviation `std` truncated to [lo, hi]", in scipy
encoding (standardized truncation bounds). -/
def specNormalTruncated (mean std lo hi : Rat) : Dist :=
  .truncnorm ((lo - mean) / std) ((hi - mean) / std) mean std

/-! ### The sampling loop of create_ensemble -/

/-- Python `==` between a frozen scipy distribution object and the int
`0`: `rv_frozen` defines no `__eq__`, so this is an identity comparison
with an `int`, which is always `False`. -/
def distEqZero (d : Dist) : Bool :=
  false

/-- One iteration of the `for i, param in enumerate(param_list)` loop:
`prior_dist[param]` (KeyError when absent), the `== 0` test — whose
then-branch would index the list `param_xvalue` with a string and is
modelled as the TypeError it would raise — and otherwise
`prior_dist[param].rvs(en_size) * param_scale[param]`. -/
def drawParamRow (env : Env) (prior_dist : List (String × Dist))
    (param_xvalue : List Rat) (param_scale : List (String × Rat))
    (en_size : Nat) (param : String) :
    Except Unit (List Rat × List Event) :=
  match dget prior_dist param with
  | none => .error ()
  | some d =>
    if distEqZero d then .error ()
    else
      match dget param_scale param with
      | none => .error ()
      | some sc =>
        .ok ((env.rvs d en_size).map (fun v => v * sc),
          [.rvsDraw param en_size])

/-- The whole `z_start` fill loop, one row per parameter, in
`param_list` order. -/
def drawAll (env : Env) (prior_dist : List (String × Dist))
    (param_xvalue : List Rat) (param_scale : List (String × Rat))
    (en_size : Nat) : List String → Except Unit (List (List Rat) × List Event)
  | [] => .ok ([], [])
  | p :: rest =>
    match drawParamRow env prior_dist param_xvalue param_scale en_size p with
    | .error e => .error e
    | .ok (row, ev) =>
      match drawAll env prior_dist param_xvalue param_scale en_size rest with
      | .error e => .error e
      | .ok (rows, evs) => .ok (row :: rows, ev ++ evs)

/-- The inner `for j, parameter_name in enumerate(param_list)` loop of
the dictionary construction: S-type parameters get `z_start[j, i]`. -/
def sampleBase (param_type : List (String × String))
    (z : List (List Rat)) (i : Nat) :
    List (Nat × String) → List (String × PVal) →
      Except Unit (List (String × PVal))
  | [], acc => .ok acc
  | (j, name) :: rest, acc =>
    match dget param_type name with
    | none => .error ()
    | some t =>
      sampleBase param_type z i rest
        (if t = "S" then dinsert name (.num ((z[j]!)[i]!)) acc else acc)

/-- The body of `for i in range(en_size)`: build the dictionary `dd` and
attach the AMAXTB table (`param_list.index` raises when the AMAXTB
anchors are missing). -/
def buildSample (param_list : List String)
    (param_type : List (String × String)) (z : List (List Rat)) (i : Nat) :
    Except Unit (List (String × PVal)) :=
  match sampleBase param_type z i param_list.enum [] with
  | .error e => .error e
  | .ok dd =>
    match param_list.findIdx? (fun s => s == "AMAXTB_000"),
        param_list.findIdx? (fun s => s == "AMAXTB_150") with
    | some j0, some j1 =>
      let amaxtb : List Rat :=
        [0, (z[j0]!)[i]!, 1.25, (z[j0]!)[i]!, 1.5, (z[j1]!)[i]!]
      .ok (dinsert "AMAXTB" (.table amaxtb) dd)
    | _, _ => .error ()

/-- Embeds `ensemble_parameters`: one dictionary per ensemble member, in order
`i = 0, …, en_size - 1`. -/
def ensembleSamples (param_list : List String)
    (param_type : List (String × String)) (z : List (List Rat)) :
    List Nat → Except Unit (List (List (String × PVal)))
  | [] => .ok []
  | i :: rest =>
    match buildSample param_list param_type z i with
    | .error e => .error e
    | .ok dd =>
      match ensembleSamples param_list param_type z rest with
      | .error e => .error e
      | .ok ds => .ok (dd :: ds)

/-! ### wofost_parameter_sweep_func -/

/-- The `agromanagement_contents` template instantiated as the source
formats it (crop "maize", variety "Ghana", `max_duration: 150`). -/
def agroText (startD endD : DateD) : String :=
  "\nVersion: 1.0\nAgroManagement:\n- " ++ toString startD.y ++
  "-01-01:\n    CropCalendar:\n        crop_name: \x27maize\x27\n" ++
  "        variety_name: \x27Ghana\x27\n        crop_start_date: " ++
  showDate startD ++ "\n        crop_start_type: sowing\n" ++
  "        crop_end_date: " ++ showDate endD ++
  "\n        crop_end_type: harvest\n        max_duration: 150\n" ++
  "    TimedEvents: null\n    StateEvents: null\n"

/-- Embeds `run_wofost(parameters, agromanagement, wdp, potential)`: hand the
assembled inputs to `Wofost71_PP` when `potential` else
`Wofost71_WLP_FD`. -/
def run_wofost (env : Env) (inputs : SimInputs) (potential : Bool) :
    SimResult :=
  if potential then env.runPP inputs else env.runWLP inputs

/-- Embeds `wofost_parameter_sweep_func(year, ens_parameters, meteo, wav,
cropfile, soil, co2, rdmsol, potential)`.  Note the crop data is read
from the hard-coded path "data/MAIZGA-C.CAB" — the `cropfile` argument
is never used.  `SDOY` is popped from the dictionary (KeyError when
absent, TypeError when it is a table), rounded, and turned into the
sowing date; the scratch agromanagement file is written and the
simulation runs on the remaining overrides. -/
def wofost_parameter_sweep_func (env : Env) (year : Int)
    (ens_parameters : List (String × PVal)) (meteo : String) (wav : Rat)
    (cropfile soil : String) (co2 rdmsol : Rat) (potential : Bool) :
    Except Unit (SimResult × List Event) :=
  match dget ens_parameters "SDOY" with
  | none => .error ()
  | some (.table _) => .error ()
  | some (.num q) =>
    let rest := dremove ens_parameters "SDOY"
    let sowing_doy := roundHalfEven q
    match dateOfDoy year sowing_doy with
    | none => .error ()
    | some startD =>
      let endD : DateD := ⟨year, 11, 30⟩
      let amgt := agroText startD endD
      let inputs : SimInputs :=
        { cropPath := "data/MAIZGA-C.CAB"
          soilPath := soil
          rdmsol := rdmsol
          wav := wav
          co2 := co2
          overrides := rest
          cropName := "maize"
          varietyName := "Ghana"
          cropStart := startD
          cropEnd := endD
          maxDuration := 150
          meteoPath := meteo }
      .ok (run_wofost env inputs potential,
        [.amgtWrite "data/temporal.amgt" amgt])

/-! ### The ensemble map -/

/-- Embeds `process_map(wrapper, ensemble_parameters)`: the concurrent map of
`tqdm.contrib.concurrent` returns the results in input order; a failing
task re-raises in the caller. -/
def mapCollect (f : α → Except Unit (β × List Event)) :
    List α → Except Unit (List β × List Event)
  | [] => .ok ([], [])
  | x :: xs =>
    match f x with
    | .error e => .error e
    | .ok (b, ev) =>
      match mapCollect f xs with
      | .error e => .error e
      | .ok (bs, evs) => .ok (b :: bs, ev ++ evs)

/-- Modelled from the spec words (and the commented-out sequential loop
in the source): apply `f` to each sample in turn, appending each result
to the end of the result list. -/
def seqRun (f : α → Except Unit (β × List Event)) (l : List α) :
    Except Unit (List β × List Event) :=
  l.foldl
    (fun acc x =>
      match acc with
      | .error e => .error e
      | .ok (bs, evs) =>
        match f x with
        | .error e => .error e
        | .ok (b, ev) => .ok (bs ++ [b], evs ++ ev))
    (.ok ([], []))

/-! ### create_ensemble -/

/-- The result of `create_ensemble`: a loaded `.npz` archive (local or
remote cache hit) or the list of per-sample simulation dataframes. -/
inductive EnsembleResult where
  | npz (d : NpzData)
  | sims (rs : List SimResult)
deriving DecidableEq, Repr

/-- Embeds `"ensMaizeWLLlowest_" + f"{year:4d}_{lon:.2f}_{lat:.2f}" +
f"_size{en_size:d}.npz"`. -/
def ensembleFname (env : Env) (year : Int) (lon lat : Rat) (en_size : Nat) :
    String :=
  "ensMaizeWLLlowest_" ++ fmt4d year ++ "_" ++ env.fmt2 lon ++ "_" ++
    env.fmt2 lat ++ "_size" ++ toString en_size ++ ".npz"

/-- Embeds `create_ensemble(lat, lon, year, en_size, param_file, cropfile,
soil, co2, rdmsol, potential)`: local `.npz` cache check, JASMIN remote
check, then meteo download, prior construction, sampling, and the
parallel simulation map (the functools wrapper passes `year`, the meteo
file, `cropfile`, `soil`, `co2`, `rdmsol` and `potential`; `wav` stays
at its default 20). -/
def create_ensemble (env : Env) (lat lon : Rat) (year : Int)
    (en_size : Nat) (param_file cropfile soil : String) (co2 rdmsol : Rat)
    (potential : Bool) : Except Unit (EnsembleResult × List Event) :=
  let fname := ensembleFname env year lon lat en_size
  if env.fileExists fname then
    .ok (.npz (env.npzLoad fname), [.existsCheck fname, .npzLoad fname])
  else
    match get_ensemble_jasmin env year lat lon jasminBase with
    | .error e => .error e
    | .ok (some d, jev) => .ok (.npz d, [.existsCheck fname] ++ jev)
    | .ok (none, jev) =>
      match get_era5_gee env year lat lon "./" with
      | .error e => .error e
      | .ok (meteo_file, mev) =>
        let rows := env.paramRows param_file
        let pr := define_prior_distribution rows
        match drawAll env pr.1 pr.2.2.1 pr.2.2.2.2.2 en_size pr.2.1 with
        | .error e => .error e
        | .ok (z_start, dev) =>
          match ensembleSamples pr.2.1 pr.2.2.2.2.1 z_start
              (List.range en_size) with
          | .error e => .error e
          | .ok ensemble_parameters =>
            match mapCollect
                (fun dd => wofost_parameter_sweep_func env year dd
                  meteo_file 20 cropfile soil co2 rdmsol potential)
                ensemble_parameters with
            | .error e => .error e
            | .ok (results, sev) =>
              .ok (.sims results,
                [.existsCheck fname] ++ jev ++ mev ++
                  [.paramRead param_file] ++ dev ++ sev)

/-- Modelled from the spec words for the matching loop: a link matches
when its second underscore field parses to `year`, its third to `lon`
and its fourth to `lat`; the first and fifth fields (and hence the
stored ensemble size) play no role. -/
def linkMatchB (env : Env) (year : Int) (lat lon : Rat) (l : String) :
    Bool :=
  match pySplit '_' l with
  | [_, fy, flo, fla, _] =>
    match env.parseInt fy, env.parseFloat flo, env.parseFloat fla with
    | some iy, some qlon, some qlat =>
      year == iy && lat == qlat && lon == qlon
    | _, _, _ => false
  | _ => false

/-! ### Concrete environments for evaluation -/

/-- A three-row parameter file: a uniform row, a Gaussian row and a
second uniform row, with the two AMAXTB anchor parameters present. -/
def testRows : List ParamRow :=
  [{ code := "SDOY", xvalue := 1, yvalue := 150, minv := 100, maxv := 200,
     stddev := 10, distribution := none, variation := "S", scale := 1 },
   { code := "AMAXTB_000", xvalue := 1, yvalue := 55, minv := 10, maxv := 90,
     stddev := 5, distribution := some "Gaussian", variation := "S",
     scale := 1 },
   { code := "AMAXTB_150", xvalue := 1, yvalue := 50, minv := 10, maxv := 90,
     stddev := 5, distribution := none, variation := "S", scale := 1 }]

/-- A concrete environment: empty file system, empty JASMIN listing,
every EarthEngine key present with value 1, scipy draws returning 180,
and trivial renderers. -/
def testEnv : Env :=
  { fileExists := fun _ => false
    npzLoad := fun _ => ⟨0⟩
    anchors := []
    jasminDownload := fun _ => ⟨1⟩
    parseInt := fun _ => none
    parseFloat := fun _ => none
    eeData := fun _ => some (some 1)
    exp := fun q => q
    sqrt := fun q => q
    fmt2 := fun _ => "0.00"
    fstr := fun _ => "0.0"
    render := fun _ => "0.0"
    paramRows := fun _ => testRows
    rvs := fun _ n => List.replicate n 180
    runPP := fun _ => ⟨7⟩
    runWLP := fun _ => ⟨8⟩ }

/-- Variant of `testEnv` with no EarthEngine data at all (every hour missing). -/
def testEnvNoData : Env :=
  { testEnv with eeData := fun _ => none }

/-- Variant of `testEnv` with every file present (cache-hit situations). -/
def testEnvHit : Env :=
  { testEnv with fileExists := fun _ => true }

/-- Variant of `testEnv` with a JASMIN listing holding one matching `.npz` link. -/
def testEnvJas : Env :=
  { testEnv with
    anchors := ["ens_2020_-2.70_8.20_size50.npz", "readme.html"]
    parseInt := fun s => if s = "2020" then some 2020 else none
    parseFloat := fun s =>
      if s = "-2.70" then some (-27 / 10)
      else if s = "8.20" then some (41 / 5) else none }

/-- A two-row daily dataframe for exercising the CSV writer. -/
def testDf : MeteoDf :=
  { day := ["2021-01-01", "2021-01-02"]
    irrad := [100, 200]
    tmin := [some 1, none]
    tmax := [some 10, none]
    vap := [none, some 2]
    wind := [some 3, none]
    rain := [0, 5] }

/-! ### Dictionary lemmas -/

theorem dget_dinsert_self (k : String) (v : α) (d : List (String × α)) :
    dget (dinsert k v d) k = some v := by
  unfold dget dinsert
  by_cases h : d.any (fun p => p.1 == k)
  · simp only [h, if_true]
    induction d with
    | nil => simp at h
    | cons p ps ih =>
      simp only [List.map_cons, List.find?_cons]
      by_cases hp : p.1 == k
      · simp [hp]
      · simp only [hp, Bool.false_eq_true, if_false]
        simp only [List.any_cons, hp, Bool.false_or] at h
        exact ih h
  · simp only [h, Bool.false_eq_true, if_false]
    rw [List.find?_append]
    have hd : d.find? (fun p => p.1 == k) = none := by
      rw [List.find?_eq_none]
      intro x hx hpx
      exact h (List.any_eq_true.mpr ⟨x, hx, hpx⟩)
    simp [hd]

theorem find?_mapReplace_ne (k k2 : String) (v : α) (hne : k2 ≠ k) :
    ∀ d : List (String × α),
      (d.map (fun p => if p.1 == k then (k, v) else p)).find?
          (fun p => p.1 == k2) =
        d.find? (fun p => p.1 == k2)
  | [] => by simp
  | p :: ps => by
    simp only [List.map_cons, List.find?_cons]
    by_cases hp : p.1 == k
    · have hpk : p.1 = k := by simpa using hp
      have h1 : (p.1 == k2) = false := by
        simp [hpk]
        exact fun hc => hne hc.symm
      have h2 : (k == k2) = false := by
        simp
        exact fun hc => hne hc.symm
      simp only [hp, if_true, h1, h2]
      exact find?_mapReplace_ne k k2 v hne ps
    · simp only [hp, Bool.false_eq_true, if_false]
      by_cases hpk2 : p.1 == k2
      · simp [hpk2]
      · simp only [hpk2, Bool.false_eq_true, if_false]
        exact find?_mapReplace_ne k k2 v hne ps

theorem dget_dinsert_ne (k k2 : String) (v : α) (d : List (String × α))
    (hne : k2 ≠ k) : dget (dinsert k v d) k2 = dget d k2 := by
  unfold dget dinsert
  by_cases h : d.any (fun p => p.1 == k)
  · simp only [h, if_true]
    rw [find?_mapReplace_ne k k2 v hne d]
  · simp only [h, Bool.false_eq_true, if_false]
    rw [List.find?_append]
    have h2 : ([(k, v)].find? (fun p => p.1 == k2)) = none := by
      simp
      exact fun hc => hne hc.symm
    cases hf : d.find? (fun p => p.1 == k2) <;> simp [h2]

theorem dget_buildPairs (ps d : List (String × α)) (k : String) :
    dget (buildPairs ps d) k =
      match ps.reverse.find? (fun p => p.1 == k) with
      | some p => some p.2
      | none => dget d k := by
  induction ps generalizing d with
  | nil => simp [buildPairs]
  | cons p ps ih =>
    show dget (buildPairs ps (dinsert p.1 p.2 d)) k = _
    rw [ih]
    rw [List.reverse_cons, List.find?_append]
    cases hf : ps.reverse.find? (fun q => q.1 == k) with
    | some q => simp [Option.or]
    | none =>
      by_cases hk : p.1 == k
      · have hpk : p.1 = k := by simpa using hk
        simp only [Option.none_or, List.find?_singleton, hk, if_true]
        subst hpk
        exact dget_dinsert_self p.1 p.2 d
      · simp only [Option.none_or, List.find?_singleton, hk,
          Bool.false_eq_true, if_false]
        refine dget_dinsert_ne p.1 k p.2 d ?_
        intro hc
        exact hk (by simp [hc])

theorem find?_key_of_mem (l : List (String × α)) (k : String) (v : α)
    (hmem : (k, v) ∈ l) (huniq : (l.map Prod.fst).Nodup) :
    l.find? (fun p => p.1 == k) = some (k, v) := by
  induction l with
  | nil => simp at hmem
  | cons p ps ih =>
    rw [List.find?_cons]
    rcases List.mem_cons.mp hmem with h1 | h2
    · simp [← h1]
    · have hk2 : k ∈ ps.map Prod.fst :=
        List.mem_map.mpr ⟨(k, v), h2, rfl⟩
      have hne : (p.1 == k) = false := by
        simp only [List.map_cons, List.nodup_cons] at huniq
        simp
        intro hc
        exact huniq.1 (hc ▸ hk2)
      simp only [hne]
      exact ih h2 (by
        simp only [List.map_cons, List.nodup_cons] at huniq
        exact huniq.2)

/-! ### Reshape lemmas -/

theorem chunkRows_flatMap (g : Nat → List α) (k : Nat)
    (hg : ∀ j, (g j).length = k) :
    ∀ (n s : Nat), chunkRows k n ((List.range' s n).flatMap g) =
      (List.range' s n).map g := by
  intro n
  induction n with
  | zero => intro s; simp [chunkRows]
  | succ n ih =>
    intro s
    rw [List.range'_succ]
    simp only [List.flatMap_cons, List.map_cons]
    show (g s ++ (List.range' (s + 1) n).flatMap g).take k ::
        chunkRows k n ((g s ++ (List.range' (s + 1) n).flatMap g).drop k) = _
    rw [List.take_left' (hg s)]
    have hdrop : (g s ++ (List.range' (s + 1) n).flatMap g).drop k =
        (List.range' (s + 1) n).flatMap g := by
      rw [← hg s]
      exact List.drop_left _ _
    rw [hdrop, ih (s + 1)]

theorem bandDays_eq_map (env : Env) (y : Int) (p : String) :
    bandDays env y p = (List.range (totalDays y)).map
      (fun i => dayHours env y i p) := by
  unfold bandDays hourlySeries
  rw [List.range_eq_range']
  exact chunkRows_flatMap _ 24 (fun j => by simp [dayHours]) (totalDays y) 0

/-! ### Retry lemmas -/

theorem retryExec_ok (f : Nat → Except ε α) (b : Nat) :
    ∀ (k i tries delay : Nat) (a : α), k < tries →
      (∀ j, j < k → ∃ e, f (i + j) = .error e) →
      f (i + k) = .ok a →
      retryExec f b i tries delay =
        (.ok a, (List.range k).map (fun j => delay * b ^ j)) := by
  intro k
  induction k with
  | zero =>
    intro i tries delay a htr hfail hok
    simp only [Nat.add_zero] at hok
    match tries, htr with
    | 1, _ => simp [retryExec, hok]
    | t + 2, _ => simp [retryExec, hok]
  | succ k ih =>
    intro i tries delay a htr hfail hok
    obtain ⟨t, rfl⟩ : ∃ t, tries = t + 2 := ⟨tries - 2, by omega⟩
    obtain ⟨e, he⟩ := hfail 0 (by omega)
    simp only [Nat.add_zero] at he
    have hrec := ih (i + 1) (t + 1) (delay * b) a (by omega)
      (fun j hj => by
        obtain ⟨e2, he2⟩ := hfail (j + 1) (by omega)
        exact ⟨e2, by rw [show i + 1 + j = i + (j + 1) by omega]; exact he2⟩)
      (by rw [show i + 1 + k = i + (k + 1) by omega]; exact hok)
    show (match f i with
      | .ok a => ((.ok a : Except ε α), ([] : List Nat))
      | .error _ =>
        let r := retryExec f b (i + 1) (t + 1) (delay * b)
        (r.1, delay :: r.2)) = _
    rw [he]
    simp only [hrec]
    refine congrArg (fun l => ((Except.ok a : Except ε α), l)) ?_
    rw [List.range_succ_eq_map, List.map_cons, List.map_map]
    refine congrArg₂ (· :: ·) (by ring) ?_
    refine List.map_congr_left ?_
    intro j hj
    show delay * b * b ^ j = delay * b ^ (j + 1)
    ring

theorem retryExec_fail (f : Nat → Except ε α) (b : Nat) :
    ∀ (tries i delay : Nat), 0 < tries →
      (∀ j, j < tries → ∃ e, f (i + j) = .error e) →
      ∃ e, f (i + (tries - 1)) = .error e ∧
        retryExec f b i tries delay =
          (.error e, (List.range (tries - 1)).map (fun j => delay * b ^ j)) := by
  intro tries
  induction tries with
  | zero => omega
  | succ t ih =>
    intro i delay hpos hfail
    match t, ih with
    | 0, _ =>
      obtain ⟨e, he⟩ := hfail 0 (by omega)
      simp only [Nat.add_zero] at he
      exact ⟨e, by simpa using he, by simp [retryExec, he]⟩
    | t2 + 1, ih =>
      obtain ⟨e0, he0⟩ := hfail 0 (by omega)
      simp only [Nat.add_zero] at he0
      obtain ⟨e, he, hr⟩ := ih (i + 1) (delay * b) (by omega)
        (fun j hj => by
          obtain ⟨e2, he2⟩ := hfail (j + 1) (by omega)
          exact ⟨e2, by rw [show i + 1 + j = i + (j + 1) by omega]; exact he2⟩)
      refine ⟨e, ?_, ?_⟩
      · rw [show i + (t2 + 1 + 1 - 1) = i + 1 + (t2 + 1 - 1) by omega]
        exact he
      · rw [show t2 + 1 + 1 = t2 + 2 by omega]
        show (match f i with
          | .ok a => ((.ok a : Except ε α), ([] : List Nat))
          | .error _ =>
            let r := retryExec f b (i + 1) (t2 + 1) (delay * b)
            (r.1, delay :: r.2)) = _
        rw [he0]
        simp only [hr]
        refine congrArg (fun l => ((Except.error e : Except ε α), l)) ?_
        rw [show t2 + 2 - 1 = (t2 + 1 - 1) + 1 by omega]
        rw [List.range_succ_eq_map, List.map_cons, List.map_map]
        refine congrArg₂ (· :: ·) (by ring) ?_
        refine List.map_congr_left ?_
        intro j hj
        show delay * b * b ^ j = delay * b ^ (j + 1)
        ring

/-! ### Parallel-map / sequential-loop lemmas -/

theorem seqRun_foldl_step (f : α → Except Unit (β × List Event))
    (l : List α) :
    ∀ (bs : List β) (evs : List Event),
      l.foldl
        (fun acc x =>
          match acc with
          | Except.error e => Except.error e
          | Except.ok (bs, evs) =>
            match f x with
            | Except.error e => Except.error e
            | Except.ok (b, ev) => Except.ok (bs ++ [b], evs ++ ev))
        (Except.ok (bs, evs)) =
      match mapCollect f l with
      | Except.error e => Except.error e
      | Except.ok (cs, ev2) => Except.ok (bs ++ cs, evs ++ ev2) := by
  induction l with
  | nil => intro bs evs; simp [mapCollect]
  | cons x xs ih =>
    intro bs evs
    show List.foldl _
      (match f x with
        | Except.error e => Except.error e
        | Except.ok (b, ev) => Except.ok (bs ++ [b], evs ++ ev)) xs = _
    cases hf : f x with
    | error e =>
      have herr : ∀ (l2 : List α),
          l2.foldl
            (fun acc x =>
              match acc with
              | Except.error e => Except.error e
              | Except.ok (bs, evs) =>
                match f x with
                | Except.error e => Except.error e
                | Except.ok (b, ev) => Except.ok (bs ++ [b], evs ++ ev))
            (Except.error e) = Except.error e := by
        intro l2
        induction l2 with
        | nil => rfl
        | cons z zs ihz => simpa using ihz
      simp only [mapCollect, hf]
      exact herr xs
    | ok p =>
      obtain ⟨b, ev⟩ := p
      simp only [mapCollect, hf]
      rw [ih (bs ++ [b]) (evs ++ ev)]
      cases hm : mapCollect f xs with
      | error e => rfl
      | ok q =>
        obtain ⟨cs, ev2⟩ := q
        simp [List.append_assoc]

theorem seqRun_eq_mapCollect (f : α → Except Unit (β × List Event))
    (l : List α) : seqRun f l = mapCollect f l := by
  unfold seqRun
  rw [seqRun_foldl_step f l [] []]
  cases hm : mapCollect f l with
  | error e => rfl
  | ok q => obtain ⟨cs, ev2⟩ := q; simp

theorem mapCollect_ok_length (f : α → Except Unit (β × List Event)) :
    ∀ (l : List α) (bs : List β) (ev : List Event),
      mapCollect f l = .ok (bs, ev) → bs.length = l.length := by
  intro l
  induction l with
  | nil => intro bs ev h; simp only [mapCollect] at h; cases h; rfl
  | cons x xs ih =>
    intro bs ev h
    simp only [mapCollect] at h
    cases hf : f x with
    | error e => rw [hf] at h; cases h
    | ok p =>
      rw [hf] at h
      obtain ⟨b, ev1⟩ := p
      cases hm : mapCollect f xs with
      | error e => rw [hm] at h; cases h
      | ok q =>
        rw [hm] at h
        obtain ⟨cs, ev2⟩ := q
        cases h
        simp [ih cs ev2 hm]

theorem mapCollect_ok_getElem (f : α → Except Unit (β × List Event))
    [Inhabited α] [Inhabited β] :
    ∀ (l : List α) (bs : List β) (ev : List Event),
      mapCollect f l = .ok (bs, ev) →
      ∀ i, i < l.length →
        ∃ b ev1, f (l[i]!) = .ok (b, ev1) ∧ bs[i]! = b := by
  intro l
  induction l with
  | nil => intro bs ev h i hi; simp at hi
  | cons x xs ih =>
    intro bs ev h i hi
    simp only [mapCollect] at h
    cases hf : f x with
    | error e => rw [hf] at h; cases h
    | ok p =>
      rw [hf] at h
      obtain ⟨b, ev1⟩ := p
      cases hm : mapCollect f xs with
      | error e => rw [hm] at h; cases h
      | ok q =>
        rw [hm] at h
        obtain ⟨cs, ev2⟩ := q
        cases h
        cases i with
        | zero => exact ⟨b, ev1, by simpa using hf, by simp⟩
        | succ j =>
          have hj := ih cs ev2 hm j (by simpa using hi)
          simpa using hj

theorem mapCollect_ok_events (f : α → Except Unit (β × List Event))
    (P : Event → Prop)
    (hall : ∀ x b ev1, f x = .ok (b, ev1) → ∀ e ∈ ev1, P e) :
    ∀ (l : List α) (bs : List β) (ev : List Event),
      mapCollect f l = .ok (bs, ev) → ∀ e ∈ ev, P e := by
  intro l
  induction l with
  | nil =>
    intro bs ev h e he
    simp only [mapCollect] at h
    cases h
    simp at he
  | cons x xs ih =>
    intro bs ev h e he
    simp only [mapCollect] at h
    cases hf : f x with
    | error er => rw [hf] at h; cases h
    | ok p =>
      rw [hf] at h
      obtain ⟨b, ev1⟩ := p
      cases hm : mapCollect f xs with
      | error er => rw [hm] at h; cases h
      | ok q =>
        rw [hm] at h
        obtain ⟨cs, ev2⟩ := q
        cases h
        rcases List.mem_append.mp he with h1 | h2
        · exact hall x b ev1 hf e h1
        · exact ih cs ev2 hm e h2

theorem ensembleSamples_ok_length (param_list : List String)
    (param_type : List (String × String)) (z : List (List Rat)) :
    ∀ (idx : List Nat) (samples : List (List (String × PVal))),
      ensembleSamples param_list param_type z idx = .ok samples →
      samples.length = idx.length := by
  intro idx
  induction idx with
  | nil =>
    intro samples h
    simp only [ensembleSamples] at h
    cases h
    rfl
  | cons i rest ih =>
    intro samples h
    simp only [ensembleSamples] at h
    cases hb : buildSample param_list param_type z i with
    | error e => rw [hb] at h; cases h
    | ok dd =>
      rw [hb] at h
      cases hr : ensembleSamples param_list param_type z rest with
      | error e => rw [hr] at h; cases h
      | ok ds =>
        rw [hr] at h
        cases h
        simp [ih ds hr]

theorem drawAll_ok_events (env : Env) (pd : List (String × Dist))
    (xs : List Rat) (ps : List (String × Rat)) (n : Nat) :
    ∀ (plist : List String) (z : List (List Rat)) (ev : List Event),
      drawAll env pd xs ps n plist = .ok (z, ev) →
      ∀ e ∈ ev, ∃ c m, e = .rvsDraw c m := by
  intro plist
  induction plist with
  | nil =>
    intro z ev h e he
    simp only [drawAll] at h
    cases h
    simp at he
  | cons p rest ih =>
    intro z ev h e he
    simp only [drawAll] at h
    cases hd : drawParamRow env pd xs ps n p with
    | error er => rw [hd] at h; cases h
    | ok pr =>
      rw [hd] at h
      obtain ⟨row, ev1⟩ := pr
      cases hr : drawAll env pd xs ps n rest with
      | error er => rw [hr] at h; cases h
      | ok q =>
        rw [hr] at h
        obtain ⟨rows, evs⟩ := q
        cases h
        rcases List.mem_append.mp he with h1 | h2
        · -- ev1 comes from drawParamRow: always a single rvsDraw event
          unfold drawParamRow at hd
          cases hg : dget pd p with
          | none => rw [hg] at hd; cases hd
          | some dist =>
            rw [hg] at hd
            simp only [distEqZero, Bool.false_eq_true, if_false] at hd
            cases hs : dget ps p with
            | none => rw [hs] at hd; cases hd
            | some sc =>
              rw [hs] at hd
              cases hd
              simp only [List.mem_singleton] at h1
              exact ⟨p, n, h1⟩
        · exact ih rows evs hr e h2

theorem wofost_sweep_ok_events (env : Env) (year : Int)
    (dd : List (String × PVal)) (meteo : String) (wav : Rat)
    (cropfile soil : String) (co2 rdmsol : Rat) (potential : Bool)
    (r : SimResult) (ev : List Event)
    (h : wofost_parameter_sweep_func env year dd meteo wav cropfile soil
      co2 rdmsol potential = .ok (r, ev)) :
    ∀ e ∈ ev, ∃ c, e = .amgtWrite "data/temporal.amgt" c := by
  unfold wofost_parameter_sweep_func at h
  cases hg : dget dd "SDOY" with
  | none => rw [hg] at h; cases h
  | some v =>
    rw [hg] at h
    cases v with
    | table l => cases h
    | num q =>
      dsimp only at h
      cases hd : dateOfDoy year (roundHalfEven q) with
      | none => rw [hd] at h; cases h
      | some startD =>
        rw [hd] at h
        cases h
        intro e he
        simp only [List.mem_singleton] at he
        exact ⟨_, he⟩

/-! ### Column lemmas for the daily dataframe -/

theorem getElem!_range_map [Inhabited α] (f : Nat → α) (N i : Nat)
    (h : i < N) : ((List.range N).map f)[i]! = f i := by
  have hl : i < ((List.range N).map f).length := by simpa using h
  rw [getElem!_pos ((List.range N).map f) i hl, List.getElem_map,
    List.getElem_range]

theorem era5_df_wind_eq (env : Env) (y : Int) :
    (era5_df env y).wind = (List.range (totalDays y)).map
      (fun i => nanmean (List.zipWith (windHour env)
        (dayHours env y i "u_component_of_wind_10m")
        (dayHours env y i "v_component_of_wind_10m"))) := by
  show List.zipWith _ (bandDays env y "u_component_of_wind_10m")
    (bandDays env y "v_component_of_wind_10m") = _
  rw [bandDays_eq_map, bandDays_eq_map]
  rw [List.zipWith_map_left, List.zipWith_map_right, List.zipWith_same]

/-! ### Dedent lemmas for the CSV header -/

theorem all_space_append_false (a b : String)
    (h : a.toList.all (fun c => c = ' ') = false) :
    ((a ++ b).toList.all (fun c => c = ' ')) = false := by
  show ((a ++ b).data.all _) = false
  rw [String.data_append, List.all_append]
  have ha : a.data.all (fun c => decide (c = ' ')) = false := h
  rw [ha, Bool.false_and]

theorem append_ne_empty_left (a b : String) (h : a.length ≠ 0) :
    a ++ b ≠ "" := by
  intro hc
  have hlen := congrArg String.length hc
  rw [String.length_append] at hlen
  simp only [String.length_empty] at hlen
  omega

theorem foldl_commonLead_nil (g : String → List Char) :
    ∀ ls : List String,
      ls.foldl (fun acc s => commonLead acc (g s)) [] = []
  | [] => rfl
  | x :: xs => by
    have h : commonLead [] (g x) = [] := rfl
    show xs.foldl (fun acc s => commonLead acc (g s)) (commonLead [] (g x)) = []
    rw [h]
    exact foldl_commonLead_nil g xs

theorem pyDedent_hdr_gen (mid : String)
    (hA : mid.toList.all (fun c => c = ' ') = false) (hNe : mid ≠ "") :
    pyDedentLines
      ["Country     = \x27somewhere\x27",
       "Station     = \x27anything\x27",
       "Description = \x27Reanalysis data\x27",
       "Source      = \x27ERA5\x27",
       "Contact     = \x27J Gomez-Dans\x27",
       mid,
       "## Daily weather observations (missing values are NaN)",
       "    "] =
      ["Country     = \x27somewhere\x27",
       "Station     = \x27anything\x27",
       "Description = \x27Reanalysis data\x27",
       "Source      = \x27ERA5\x27",
       "Contact     = \x27J Gomez-Dans\x27",
       mid,
       "## Daily weather observations (missing values are NaN)",
       ""] := by
  have hmid : (if mid ≠ "" ∧ mid.toList.all (fun c => c = ' ') then ""
      else mid) = mid := by
    rw [if_neg]
    intro hc
    rw [hA] at hc
    exact Bool.false_ne_true hc.2
  show
    (let norm :=
      (["Country     = \x27somewhere\x27",
        "Station     = \x27anything\x27",
        "Description = \x27Reanalysis data\x27",
        "Source      = \x27ERA5\x27",
        "Contact     = \x27J Gomez-Dans\x27",
        mid,
        "## Daily weather observations (missing values are NaN)",
        "    "]).map
        (fun l => if l ≠ "" ∧ l.toList.all (fun c => c = ' ') then "" else l)
     let margin := marginOf (norm.filter (fun l => l ≠ ""))
     norm.map
       (fun l => if l = "" then ""
         else String.mk (l.toList.drop margin.length))) = _
  have hnormed :
      (["Country     = \x27somewhere\x27",
        "Station     = \x27anything\x27",
        "Description = \x27Reanalysis data\x27",
        "Source      = \x27ERA5\x27",
        "Contact     = \x27J Gomez-Dans\x27",
        mid,
        "## Daily weather observations (missing values are NaN)",
        "    "]).map
        (fun l => if l ≠ "" ∧ l.toList.all (fun c => c = ' ') then "" else l) =
      ["Country     = \x27somewhere\x27",
       "Station     = \x27anything\x27",
       "Description = \x27Reanalysis data\x27",
       "Source      = \x27ERA5\x27",
       "Contact     = \x27J Gomez-Dans\x27",
       mid,
       "## Daily weather observations (missing values are NaN)",
       ""] := by
    simp only [List.map_cons, List.map_nil]
    rw [if_neg (by decide), if_neg (by decide), if_neg (by decide),
      if_neg (by decide), if_neg (by decide), hmid, if_neg (by decide),
      if_pos (by decide)]
  simp only [hnormed]
  have hfiltered :
      (["Country     = \x27somewhere\x27",
        "Station     = \x27anything\x27",
        "Description = \x27Reanalysis data\x27",
        "Source      = \x27ERA5\x27",
        "Contact     = \x27J Gomez-Dans\x27",
        mid,
        "## Daily weather observations (missing values are NaN)",
        ""]).filter (fun l => l ≠ "") =
      ["Country     = \x27somewhere\x27",
       "Station     = \x27anything\x27",
       "Description = \x27Reanalysis data\x27",
       "Source      = \x27ERA5\x27",
       "Contact     = \x27J Gomez-Dans\x27",
       mid,
       "## Daily weather observations (missing values are NaN)"] := by
    rw [List.filter_cons_of_pos (by decide), List.filter_cons_of_pos (by decide),
      List.filter_cons_of_pos (by decide), List.filter_cons_of_pos (by decide),
      List.filter_cons_of_pos (by decide)]
    simp [hNe]
  simp only [hfiltered]
  have hmargin :
      marginOf
        ["Country     = \x27somewhere\x27",
         "Station     = \x27anything\x27",
         "Description = \x27Reanalysis data\x27",
         "Source      = \x27ERA5\x27",
         "Contact     = \x27J Gomez-Dans\x27",
         mid,
         "## Daily weather observations (missing values are NaN)"] = [] := by
    show List.foldl _ (leadWS "Country     = \x27somewhere\x27") _ = []
    rw [show leadWS "Country     = \x27somewhere\x27" = [] from by decide]
    exact foldl_commonLead_nil leadWS _
  simp only [hmargin, List.length_nil, List.drop_zero]
  simp only [List.map_cons, List.map_nil]
  rw [if_neg (by decide), if_neg (by decide), if_neg (by decide),
    if_neg (by decide), if_neg (by decide), if_neg hNe, if_neg (by decide),
    if_pos trivial]
  rfl

/-! ### Claim theorems -/

/-- Claim C4: the one retried network call,
`download_image_over_region`, is attempted up to 10 times with fixed
backoff (first delay 1 second, doubling after each failure); the first
successful attempt is returned unchanged with no sleeps, a success at
attempt `k` is returned after sleeps 1, 2, …, 2^(k-1), and if all 10
attempts fail the final exception propagates after the 9 sleeps
1, 2, …, 256. -/
theorem download_image_retry_policy {ε α : Type} (f : Nat → Except ε α) :
    (∀ a : α, f 0 = .ok a → download_image_over_region f = (.ok a, [])) ∧
    ((∀ k, k < 10 → ∃ e, f k = .error e) →
      ∃ e, f 9 = .error e ∧
        download_image_over_region f =
          (.error e, [1, 2, 4, 8, 16, 32, 64, 128, 256])) ∧
    (∀ (k : Nat) (a : α), k < 10 → (∀ j, j < k → ∃ e, f j = .error e) →
      f k = .ok a →
      download_image_over_region f =
        (.ok a, (List.range k).map (fun j => 2 ^ j))) := by
  refine ⟨?_, ?_, ?_⟩
  · intro a h
    have hr := retryExec_ok f 2 0 0 10 1 a (by omega)
      (fun j hj => absurd hj (by omega)) (by simpa using h)
    simpa [download_image_over_region] using hr
  · intro hfail
    obtain ⟨e, he, hr⟩ := retryExec_fail f 2 10 0 1 (by omega)
      (fun j hj => by simpa using hfail j hj)
    refine ⟨e, by simpa using he, ?_⟩
    show retryExec f 2 0 10 1 = _
    rw [hr]
    refine congrArg (fun l => ((Except.error e : Except ε α), l)) ?_
    decide
  · intro k a hk hfail hok
    have hr := retryExec_ok f 2 k 0 10 1 a hk
      (fun j hj => by simpa using hfail j hj) (by simpa using hok)
    show retryExec f 2 0 10 1 = _
    rw [hr]
    refine congrArg (fun l => ((Except.ok a : Except ε α), l)) ?_
    refine List.map_congr_left ?_
    intro j hj
    rw [one_mul]

/-- Witness for C4 at a concrete always-failing call. -/
theorem download_image_retry_policy_witness :
    download_image_over_region (fun _ => (.error 0 : Except Nat Nat)) =
      (.error 0, [1, 2, 4, 8, 16, 32, 64, 128, 256]) := by
  obtain ⟨e, he, hr⟩ :=
    (download_image_retry_policy (fun _ => (.error 0 : Except Nat Nat))).2.1
      (fun k hk => ⟨0, rfl⟩)
  have he2 : (Except.error 0 : Except Nat Nat) = .error e := he
  injection he2 with h
  rw [← h] at hr
  exact hr

/-- Claim C10: the `cropfile` argument never influences the result:
`wofost_parameter_sweep_func` reads crop data from the hard-coded path
"data/MAIZGA-C.CAB", so two calls (and two `create_ensemble` calls,
which forward `cropfile`) that differ only in `cropfile` produce
identical outputs. -/
theorem cropfile_noninterference (env : Env) (year : Int)
    (dd : List (String × PVal)) (meteo : String) (wav : Rat)
    (cf1 cf2 soil : String) (co2 rdmsol : Rat) (potential : Bool)
    (lat lon : Rat) (en_size : Nat) (param_file : String) :
    wofost_parameter_sweep_func env year dd meteo wav cf1 soil co2 rdmsol
        potential =
      wofost_parameter_sweep_func env year dd meteo wav cf2 soil co2 rdmsol
        potential ∧
    create_ensemble env lat lon year en_size param_file cf1 soil co2 rdmsol
        potential =
      create_ensemble env lat lon year en_size param_file cf2 soil co2
        rdmsol potential :=
  ⟨rfl, rfl⟩

/-- Claim C7: `write_pcse_csv` writes the fixed header block (Country,
Station, Description, Source, Contact, then the Longitude / Latitude /
Elevation / AngstromA / AngstromB / HasSunshine line — the defaults in
the source for the Angstrom coefficients are -0.18 and -0.55, which is
what `get_era5_gee` passes), followed by a CSV table with exactly the
eight columns DAY, IRRAD, TMIN, TMAX, VAP, WIND, RAIN, SNOWDEPTH in
that order, where the SNOWDEPTH column is entirely NaN (written "nan")
and missing values are written "nan"; it returns the path it was
given. -/
theorem write_pcse_csv_layout (env : Env) (df : MeteoDf) (elev : Option Rat)
    (lon lat : Rat) (path : String) (c1 c2 : Rat) :
    (write_pcse_csv env df elev lon lat path c1 c2).2 = path ∧
    (write_pcse_csv env df elev lon lat path c1 c2).1 =
      joinLines
        ["Country     = \x27somewhere\x27",
         "Station     = \x27anything\x27",
         "Description = \x27Reanalysis data\x27",
         "Source      = \x27ERA5\x27",
         "Contact     = \x27J Gomez-Dans\x27",
         "Longitude = " ++ (env.fstr lon ++ "; Latitude = " ++
           env.fstr lat ++ "; Elevation = " ++ pyOptStr env elev ++
           "; AngstromA = " ++ env.fstr c1 ++ "; AngstromB = " ++
           env.fstr c2 ++ "; HasSunshine = False"),
         "## Daily weather observations (missing values are NaN)",
         ""] ++
      ("DAY,IRRAD,TMIN,TMAX,VAP,WIND,RAIN,SNOWDEPTH\n" ++
        String.join ((List.range df.day.length).map
          (fun i => String.intercalate "," (rowFields env df i) ++ "\n"))) ∧
    (∀ i, (rowFields env df i).length = 8) ∧
    (∀ i, (rowFields env df i).getLast? = some "nan") ∧
    (∀ i, (rowFields env df i)[0]! = df.day[i]!) ∧
    (∀ i, (rowFields env df i)[7]! = "nan") ∧
    (∀ i, df.tmin[i]! = none → (rowFields env df i)[2]! = "nan") ∧
    (∀ i, df.tmax[i]! = none → (rowFields env df i)[3]! = "nan") ∧
    (∀ i, df.vap[i]! = none → (rowFields env df i)[4]! = "nan") ∧
    (∀ i, df.wind[i]! = none → (rowFields env df i)[5]! = "nan") := by
  refine ⟨rfl, ?_, fun i => rfl, fun i => rfl, fun i => rfl, fun i => rfl,
    ?_, ?_, ?_, ?_⟩
  · show joinLines (pyDedentLines (hdrLines env lon lat elev c1 c2)) ++
      csvTable env df = _
    have hA := all_space_append_false "Longitude = "
      (env.fstr lon ++ "; Latitude = " ++ env.fstr lat ++
        "; Elevation = " ++ pyOptStr env elev ++ "; AngstromA = " ++
        env.fstr c1 ++ "; AngstromB = " ++ env.fstr c2 ++
        "; HasSunshine = False") (by decide)
    have hNe := append_ne_empty_left "Longitude = "
      (env.fstr lon ++ "; Latitude = " ++ env.fstr lat ++
        "; Elevation = " ++ pyOptStr env elev ++ "; AngstromA = " ++
        env.fstr c1 ++ "; AngstromB = " ++ env.fstr c2 ++
        "; HasSunshine = False") (by decide)
    show joinLines (pyDedentLines
      ["Country     = \x27somewhere\x27",
       "Station     = \x27anything\x27",
       "Description = \x27Reanalysis data\x27",
       "Source      = \x27ERA5\x27",
       "Contact     = \x27J Gomez-Dans\x27",
       "Longitude = " ++ (env.fstr lon ++ "; Latitude = " ++
         env.fstr lat ++ "; Elevation = " ++ pyOptStr env elev ++
         "; AngstromA = " ++ env.fstr c1 ++ "; AngstromB = " ++
         env.fstr c2 ++ "; HasSunshine = False"),
       "## Daily weather observations (missing values are NaN)",
       "    "]) ++ csvTable env df = _
    rw [pyDedent_hdr_gen _ hA hNe]
    rfl
  · intro i h
    show renderCell env (df.tmin[i]!) = "nan"
    rw [h]
    rfl
  · intro i h
    show renderCell env (df.tmax[i]!) = "nan"
    rw [h]
    rfl
  · intro i h
    show renderCell env (df.vap[i]!) = "nan"
    rw [h]
    rfl
  · intro i h
    show renderCell env (df.wind[i]!) = "nan"
    rw [h]
    rfl

/-- Witness for C7: a missing TMIN cell of a concrete dataframe is
written "nan". -/
theorem write_pcse_csv_layout_witness :
    (rowFields testEnv testDf 1)[2]! = "nan" :=
  (write_pcse_csv_layout testEnv testDf (some 100) 1 2 "out.csv"
    (-18 / 100) (-55 / 100)).2.2.2.2.2.2.2.1 1 (by decide)

/-! ### Prior-dictionary lemmas (shared by the prior and sampling
claims) -/

theorem prior_pairs_nodup (rows : List ParamRow)
    (hnd : (rows.map (fun r => r.code)).Nodup) (p : ParamRow → Bool)
    (f : ParamRow → α) :
    (((rows.filter p).map (fun r => (r.code, f r))).map Prod.fst).Nodup := by
  rw [List.map_map]
  show ((rows.filter p).map (fun r => r.code)).Nodup
  exact ((List.filter_sublist rows).map (fun r => r.code)).nodup hnd

theorem find?_code_none (rows : List ParamRow) (r : ParamRow)
    (hnd : (rows.map (fun x => x.code)).Nodup) (hr : r ∈ rows)
    (p : ParamRow → Bool) (hp : p r = false) (f : ParamRow → α) :
    ((rows.filter p).map (fun x => (x.code, f x))).reverse.find?
      (fun q => q.1 == r.code) = none := by
  rw [List.find?_eq_none]
  intro x hx hbeq
  rw [List.mem_reverse] at hx
  obtain ⟨r2, hr2, hx2⟩ := List.mem_map.mp hx
  obtain ⟨hr2mem, hr2p⟩ := List.mem_filter.mp hr2
  have hcode : r2.code = r.code := by
    rw [← hx2] at hbeq
    simpa using hbeq
  have : r2 = r := List.inj_on_of_nodup_map hnd hr2mem hr hcode
  rw [this] at hr2p
  rw [hp] at hr2p
  exact Bool.false_ne_true hr2p

theorem find?_code_some (rows : List ParamRow) (r : ParamRow)
    (hnd : (rows.map (fun x => x.code)).Nodup) (hr : r ∈ rows)
    (p : ParamRow → Bool) (hp : p r = true) (f : ParamRow → α) :
    ((rows.filter p).map (fun x => (x.code, f x))).reverse.find?
      (fun q => q.1 == r.code) = some (r.code, f r) := by
  apply find?_key_of_mem
  · rw [List.mem_reverse]
    exact List.mem_map.mpr ⟨r, List.mem_filter.mpr ⟨hr, hp⟩, rfl⟩
  · rw [List.map_reverse, List.nodup_reverse]
    exact prior_pairs_nodup rows hnd p f

theorem dget_zip_dict (rows : List ParamRow) (r : ParamRow)
    (hnd : (rows.map (fun x => x.code)).Nodup) (hr : r ∈ rows)
    (f : ParamRow → α) :
    dget (buildPairs (rows.map (fun x => (x.code, f x))) []) r.code =
      some (f r) := by
  rw [dget_buildPairs]
  have h : rows.filter (fun _ => true) = rows := List.filter_true rows
  have := find?_code_some rows r hnd hr (fun _ => true) rfl f
  rw [h] at this
  rw [this]

theorem dget_prior_uniform (rows : List ParamRow) (r : ParamRow)
    (hnd : (rows.map (fun x => x.code)).Nodup) (hr : r ∈ rows)
    (h : r.distribution = none) :
    dget (define_prior_distribution rows).1 r.code = some (uniformOf r) := by
  show dget (buildPairs
    ((rows.filter (fun x => x.distribution == some "Gaussian")).map
      (fun x => (x.code, truncnormOf x)))
    (buildPairs
      ((rows.filter (fun x => x.distribution == none)).map
        (fun x => (x.code, uniformOf x))) [])) r.code = _
  rw [dget_buildPairs]
  rw [find?_code_none rows r hnd hr _ (by simp [h]) truncnormOf]
  rw [dget_buildPairs]
  rw [find?_code_some rows r hnd hr _ (by simp [h]) uniformOf]

theorem dget_prior_gauss (rows : List ParamRow) (r : ParamRow)
    (hnd : (rows.map (fun x => x.code)).Nodup) (hr : r ∈ rows)
    (h : r.distribution = some "Gaussian") :
    dget (define_prior_distribution rows).1 r.code =
      some (truncnormOf r) := by
  show dget (buildPairs
    ((rows.filter (fun x => x.distribution == some "Gaussian")).map
      (fun x => (x.code, truncnormOf x)))
    (buildPairs
      ((rows.filter (fun x => x.distribution == none)).map
        (fun x => (x.code, uniformOf x))) [])) r.code = _
  rw [dget_buildPairs]
  rw [find?_code_some rows r hnd hr _ (by simp [h]) truncnormOf]

/-- Claim C8: `define_prior_distribution` builds, for every CSV row, a
prior keyed by PARAM_CODE — uniform on [Min, Max] when the Distribution
cell is missing, a normal with mean PARAM_YVALUE and standard deviation
StdDev truncated to [Min, Max] when it is "Gaussian" — and returns the
parameter list, the x-values, the y-values, the Variation dict and the
Scale dict, in CSV row order. -/
theorem define_prior_distribution_spec (rows : List ParamRow)
    (hnd : (rows.map (fun r => r.code)).Nodup) :
    (define_prior_distribution rows).2.1 = rows.map (fun r => r.code) ∧
    (define_prior_distribution rows).2.2.1 =
      rows.map (fun r => r.xvalue) ∧
    (define_prior_distribution rows).2.2.2.1 =
      rows.map (fun r => r.yvalue) ∧
    (∀ r ∈ rows,
      dget (define_prior_distribution rows).2.2.2.2.1 r.code =
        some r.variation) ∧
    (∀ r ∈ rows,
      dget (define_prior_distribution rows).2.2.2.2.2 r.code =
        some r.scale) ∧
    (∀ r ∈ rows, r.distribution = none →
      dget (define_prior_distribution rows).1 r.code =
        some (specUniformOn r.minv r.maxv)) ∧
    (∀ r ∈ rows, r.distribution = some "Gaussian" →
      dget (define_prior_distribution rows).1 r.code =
        some (specNormalTruncated r.yvalue r.stddev r.minv r.maxv)) := by
  refine ⟨rfl, rfl, rfl, ?_, ?_, ?_, ?_⟩
  · intro r hr
    exact dget_zip_dict rows r hnd hr (fun x => x.variation)
  · intro r hr
    exact dget_zip_dict rows r hnd hr (fun x => x.scale)
  · intro r hr h
    exact dget_prior_uniform rows r hnd hr h
  · intro r hr h
    exact dget_prior_gauss rows r hnd hr h

/-- Witness for C8: the SDOY row of the concrete parameter file gets a
uniform prior on [100, 200]. -/
theorem define_prior_distribution_spec_witness :
    dget (define_prior_distribution testRows).1 "SDOY" =
      some (specUniformOn 100 200) :=
  (define_prior_distribution_spec testRows (by decide)).2.2.2.2.2.1
    { code := "SDOY", xvalue := 1, yvalue := 150, minv := 100, maxv := 200,
      stddev := 10, distribution := none, variation := "S", scale := 1 }
    (by decide) rfl

/-- Claim C9: in the sampling loop, for every parameter whose CSV row
has a missing or "Gaussian" Distribution cell, the `prior_dist[param]
== 0` test is never true (a frozen scipy distribution object never
compares equal to the int 0 — it has no custom equality, so Python
falls back to identity), the fixed-value branch — which would index the
list `param_xvalue` with a string — is unreachable, and the parameter
is always drawn via `rvs` and multiplied by its scale factor. -/
theorem sampling_branch_unreachable (rows : List ParamRow) (env : Env)
    (r : ParamRow) (en_size : Nat)
    (hnd : (rows.map (fun x => x.code)).Nodup) (hr : r ∈ rows)
    (hdist : r.distribution = none ∨ r.distribution = some "Gaussian") :
    ∃ d : Dist,
      dget (define_prior_distribution rows).1 r.code = some d ∧
      distEqZero d = false ∧
      drawParamRow env (define_prior_distribution rows).1
          (define_prior_distribution rows).2.2.1
          (define_prior_distribution rows).2.2.2.2.2 en_size r.code =
        .ok ((env.rvs d en_size).map (fun v => v * r.scale),
          [.rvsDraw r.code en_size]) := by
  have hscale : dget (define_prior_distribution rows).2.2.2.2.2 r.code =
      some r.scale := dget_zip_dict rows r hnd hr (fun x => x.scale)
  have hprior : ∃ d : Dist,
      dget (define_prior_distribution rows).1 r.code = some d := by
    rcases hdist with h | h
    · exact ⟨uniformOf r, dget_prior_uniform rows r hnd hr h⟩
    · exact ⟨truncnormOf r, dget_prior_gauss rows r hnd hr h⟩
  obtain ⟨d, hd⟩ := hprior
  refine ⟨d, hd, rfl, ?_⟩
  unfold drawParamRow
  rw [hd]
  simp only [distEqZero, Bool.false_eq_true, if_false]
  rw [hscale]

/-- Witness for C9: the uniform SDOY row of the concrete parameter file
is sampled through `rvs` times its scale factor. -/
theorem sampling_branch_unreachable_witness :
    ∃ d : Dist,
      dget (define_prior_distribution testRows).1 "SDOY" = some d ∧
      distEqZero d = false ∧
      drawParamRow testEnv (define_prior_distribution testRows).1
          (define_prior_distribution testRows).2.2.1
          (define_prior_distribution testRows).2.2.2.2.2 2 "SDOY" =
        .ok ((testEnv.rvs d 2).map (fun v => v * 1),
          [.rvsDraw "SDOY" 2]) :=
  sampling_branch_unreachable testRows testEnv
    { code := "SDOY", xvalue := 1, yvalue := 150, minv := 100, maxv := 200,
      stddev := 10, distribution := none, variation := "S", scale := 1 }
    2 (by decide) (by decide) (Or.inl rfl)

/-! ### JASMIN matching lemmas -/

theorem linkMatches_ok_of_parses (env : Env) (year : Int) (lat lon : Rat)
    (l : String)
    (h : ∃ a b c d e2, pySplit '_' l = [a, b, c, d, e2] ∧
      (env.parseInt b).isSome ∧ (env.parseFloat c).isSome ∧
      (env.parseFloat d).isSome) :
    linkMatches env year lat lon l =
      .ok (linkMatchB env year lat lon l) := by
  obtain ⟨a, b, c, d, e2, hsplit, hb, hc, hd⟩ := h
  obtain ⟨iy, hiy⟩ := Option.isSome_iff_exists.mp hb
  obtain ⟨qlon, hqlon⟩ := Option.isSome_iff_exists.mp hc
  obtain ⟨qlat, hqlat⟩ := Option.isSome_iff_exists.mp hd
  unfold linkMatches linkMatchB
  rw [hsplit]
  dsimp only
  rw [hiy, hqlon, hqlat]

theorem findLink_eq_find? (env : Env) (year : Int) (lat lon : Rat) :
    ∀ links : List String,
      (∀ l ∈ links, linkMatches env year lat lon l =
        .ok (linkMatchB env year lat lon l)) →
      findLink env year lat lon links =
        .ok (links.find? (linkMatchB env year lat lon))
  | [] => fun _ => rfl
  | l :: rest => fun h => by
    have hl := h l (List.mem_cons_self l rest)
    show (match linkMatches env year lat lon l with
      | Except.error e => Except.error e
      | Except.ok true => Except.ok (some l)
      | Except.ok false => findLink env year lat lon rest) = _
    rw [hl, List.find?_cons]
    cases hb : linkMatchB env year lat lon l with
    | true => rfl
    | false =>
      exact findLink_eq_find? env year lat lon rest
        (fun x hx => h x (List.mem_cons_of_mem l hx))

/-- Claim C3: `get_ensemble_jasmin` keeps exactly the anchor hrefs
ending in ".npz", splits each on underscores into exactly five fields,
and downloads the first link whose second field equals `year` as an
int, third field equals `lon` as a float and fourth field equals `lat`
as a float, returning `None` when no link matches; the requested
ensemble size plays no role, so under a remote hit `create_ensemble`
returns the same archive for any two requested sizes. -/
theorem get_ensemble_jasmin_first_match (env : Env) (year : Int)
    (lat lon : Rat) (base_url : String)
    (hwf : ∀ l ∈ env.anchors.filter (fun a => pyEndsWith a ".npz"),
      ∃ a b c d e2, pySplit '_' l = [a, b, c, d, e2] ∧
        (env.parseInt b).isSome ∧ (env.parseFloat c).isSome ∧
        (env.parseFloat d).isSome) :
    (get_ensemble_jasmin env year lat lon base_url =
      match (env.anchors.filter (fun a => pyEndsWith a ".npz")).find?
          (linkMatchB env year lat lon) with
      | none => .ok (none, [.httpGet base_url])
      | some link =>
        .ok (some (env.jasminDownload (base_url ++ "/" ++ link)),
          [.httpGet base_url, .httpGet (base_url ++ "/" ++ link)])) ∧
    (∀ (n m : Nat) (pf cf soil : String) (co2 rdm : Rat) (pot : Bool)
        (d : NpzData) (jev : List Event),
      env.fileExists (ensembleFname env year lon lat n) = false →
      env.fileExists (ensembleFname env year lon lat m) = false →
      get_ensemble_jasmin env year lat lon jasminBase = .ok (some d, jev) →
      create_ensemble env lat lon year n pf cf soil co2 rdm pot =
        .ok (.npz d,
          [.existsCheck (ensembleFname env year lon lat n)] ++ jev) ∧
      create_ensemble env lat lon year m pf cf soil co2 rdm pot =
        .ok (.npz d,
          [.existsCheck (ensembleFname env year lon lat m)] ++ jev)) := by
  constructor
  · unfold get_ensemble_jasmin
    dsimp only
    rw [findLink_eq_find? env year lat lon _
      (fun l hl => linkMatches_ok_of_parses env year lat lon l (hwf l hl))]
    cases hf : (env.anchors.filter (fun a => pyEndsWith a ".npz")).find?
        (linkMatchB env year lat lon) with
    | none => rfl
    | some link => rfl
  · intro n m pf cf soil co2 rdm pot d jev hn hm hjas
    constructor
    · unfold create_ensemble
      dsimp only
      rw [if_neg (by simp [hn])]
      rw [hjas]
    · unfold create_ensemble
      dsimp only
      rw [if_neg (by simp [hm])]
      rw [hjas]

/-- Witness for C3 on a concrete listing: the single matching link is
downloaded. -/
theorem get_ensemble_jasmin_first_match_witness :
    get_ensemble_jasmin testEnvJas 2020 (41 / 5) (-27 / 10) "http://b" =
      .ok (some (testEnvJas.jasminDownload
          ("http://b" ++ "/" ++ "ens_2020_-2.70_8.20_size50.npz")),
        [.httpGet "http://b",
         .httpGet ("http://b" ++ "/" ++ "ens_2020_-2.70_8.20_size50.npz")]) := by
  have hwf : ∀ l ∈ testEnvJas.anchors.filter (fun a => pyEndsWith a ".npz"),
      ∃ a b c d e2, pySplit '_' l = [a, b, c, d, e2] ∧
        (testEnvJas.parseInt b).isSome ∧ (testEnvJas.parseFloat c).isSome ∧
        (testEnvJas.parseFloat d).isSome := by
    intro l hl
    have hfl : testEnvJas.anchors.filter (fun a => pyEndsWith a ".npz") =
        ["ens_2020_-2.70_8.20_size50.npz"] := by decide
    rw [hfl] at hl
    simp only [List.mem_singleton] at hl
    subst hl
    exact ⟨"ens", "2020", "-2.70", "8.20", "size50.npz", by decide,
      by decide, by decide, by decide⟩
  have h := (get_ensemble_jasmin_first_match testEnvJas 2020 (41 / 5)
    (-27 / 10) "http://b" hwf).1
  rw [h]
  with_unfolding_all decide

/-- Claim C6: the daily time series built by `get_era5_gee` has one row
per day of the requested year (365, or 366 in a leap year), and for
each day TMIN and TMAX are the NaN-ignoring minimum and maximum of the
24 hourly 2m temperatures converted to Celsius, IRRAD is the
NaN-ignoring sum of the hourly solar radiation divided by 1000 clamped
at 0, RAIN is the NaN-ignoring sum of hourly precipitation times 1000
clamped at 0, VAP is the NaN-ignoring mean of the vapour pressure
computed from the hourly dewpoint temperature clamped at 0, WIND is the
NaN-ignoring mean of sqrt(u² + v²) of the hourly wind components, and
an hour missing from the downloaded data is treated as NaN. -/
theorem era5_daily_aggregation (env : Env) (y : Int) (i : Nat)
    (hi : i < totalDays y) :
    ((era5_df env y).day.length = totalDays y ∧
     (era5_df env y).irrad.length = totalDays y ∧
     (era5_df env y).tmin.length = totalDays y ∧
     (era5_df env y).tmax.length = totalDays y ∧
     (era5_df env y).vap.length = totalDays y ∧
     (era5_df env y).wind.length = totalDays y ∧
     (era5_df env y).rain.length = totalDays y) ∧
    (isLeap y = true → totalDays y = 366) ∧
    (isLeap y = false → totalDays y = 365) ∧
    (era5_df env y).day[i]! = isoDate y i ∧
    (era5_df env y).tmin[i]! =
      nanminOpt (dayHours env y i "temperature_2m") ∧
    (era5_df env y).tmax[i]! =
      nanmaxOpt (dayHours env y i "temperature_2m") ∧
    (era5_df env y).irrad[i]! =
      max (nansum (dayHours env y i
        "surface_solar_radiation_downwards_hourly")) 0 ∧
    (era5_df env y).rain[i]! =
      max (nansum (dayHours env y i "total_precipitation_hourly")) 0 ∧
    (era5_df env y).vap[i]! =
      (nanmean (dayHours env y i "dewpoint_temperature_2m")).map
        (fun x => max x 0) ∧
    (era5_df env y).wind[i]! =
      nanmean (List.zipWith (windHour env)
        (dayHours env y i "u_component_of_wind_10m")
        (dayHours env y i "v_component_of_wind_10m")) ∧
    (dayHours env y i "temperature_2m").length = 24 ∧
    (∀ h, h < 24 → (dayHours env y i "temperature_2m")[h]! =
      match env.eeData (eeHeader y i h "temperature_2m") with
      | some (some v) => some (v - 273.15)
      | some none => none
      | none => none) ∧
    (∀ h, h < 24 → (dayHours env y i "dewpoint_temperature_2m")[h]! =
      match env.eeData (eeHeader y i h "dewpoint_temperature_2m") with
      | some (some v) => some (calculate_hum env v)
      | some none => none
      | none => none) := by
  have htemp : era5Transform env "temperature_2m" =
      fun v => v - 273.15 := by
    unfold era5Transform
    rw [if_neg (by decide), if_pos rfl]
  have hdew : era5Transform env "dewpoint_temperature_2m" =
      calculate_hum env := by
    unfold era5Transform
    rw [if_pos rfl]
  refine ⟨⟨by simp [era5_df], ?_, ?_, ?_, ?_, ?_, ?_⟩, ?_, ?_, ?_, ?_, ?_,
    ?_, ?_, ?_, ?_, ?_, ?_, ?_⟩
  · show ((bandDays env y _).map _).length = _
    rw [bandDays_eq_map]
    simp
  · show ((bandDays env y _).map _).length = _
    rw [bandDays_eq_map]
    simp
  · show ((bandDays env y _).map _).length = _
    rw [bandDays_eq_map]
    simp
  · show ((bandDays env y _).map _).length = _
    rw [bandDays_eq_map]
    simp
  · rw [era5_df_wind_eq]
    simp
  · show ((bandDays env y _).map _).length = _
    rw [bandDays_eq_map]
    simp
  · intro h
    unfold totalDays
    rw [h]
    rfl
  · intro h
    unfold totalDays
    rw [h]
    rfl
  · exact getElem!_range_map _ _ i hi
  · show ((bandDays env y "temperature_2m").map nanminOpt)[i]! = _
    rw [bandDays_eq_map, List.map_map]
    exact getElem!_range_map _ _ i hi
  · show ((bandDays env y "temperature_2m").map nanmaxOpt)[i]! = _
    rw [bandDays_eq_map, List.map_map]
    exact getElem!_range_map _ _ i hi
  · show ((bandDays env y "surface_solar_radiation_downwards_hourly").map
        _)[i]! = _
    rw [bandDays_eq_map, List.map_map]
    exact getElem!_range_map _ _ i hi
  · show ((bandDays env y "total_precipitation_hourly").map _)[i]! = _
    rw [bandDays_eq_map, List.map_map]
    exact getElem!_range_map _ _ i hi
  · show ((bandDays env y "dewpoint_temperature_2m").map _)[i]! = _
    rw [bandDays_eq_map, List.map_map]
    exact getElem!_range_map _ _ i hi
  · rw [era5_df_wind_eq]
    exact getElem!_range_map _ _ i hi
  · simp [dayHours]
  · intro h hh
    show ((List.range 24).map _)[h]! = _
    rw [getElem!_range_map _ _ h hh]
    unfold lookupHour
    rw [htemp]
  · intro h hh
    show ((List.range 24).map _)[h]! = _
    rw [getElem!_range_map _ _ h hh]
    unfold lookupHour
    rw [hdew]

/-- Witness for C6: with every hour of day 0 missing, TMIN of day 0 is
NaN. -/
theorem era5_daily_aggregation_witness :
    (era5_df testEnvNoData 2021).tmin[0]! = none := by
  have h :=
    (era5_daily_aggregation testEnvNoData 2021 0 (by decide)).2.2.2.2.1
  rw [h]
  decide

/-! ### Cache-path lemmas -/

theorem get_ensemble_jasmin_ok_events (env : Env) (year : Int)
    (lat lon : Rat) (bu : String) (r : Option NpzData) (ev : List Event)
    (h : get_ensemble_jasmin env year lat lon bu = .ok (r, ev)) :
    ∀ e ∈ ev, ∃ u, e = .httpGet u := by
  unfold get_ensemble_jasmin at h
  dsimp only at h
  cases hf : findLink env year lat lon
      (env.anchors.filter (fun a => pyEndsWith a ".npz")) with
  | error er => rw [hf] at h; cases h
  | ok o =>
    rw [hf] at h
    cases o with
    | none =>
      cases h
      intro e he
      simp only [List.mem_singleton] at he
      exact ⟨bu, he⟩
    | some link =>
      cases h
      intro e he
      rcases List.mem_cons.mp he with rfl | he2
      · exact ⟨bu, rfl⟩
      · simp only [List.mem_singleton] at he2
        exact ⟨_, he2⟩

theorem get_era5_gee_hit (env : Env) (year : Int) (lat lon : Rat)
    (dest : String)
    (h : env.fileExists (era5CsvName env dest lat lon year) = true) :
    get_era5_gee env year lat lon dest =
      .ok (era5CsvName env dest lat lon year,
        [.existsCheck (era5CsvName env dest lat lon year)]) := by
  unfold get_era5_gee
  rw [if_pos h]

theorem get_era5_gee_ok_writes (env : Env) (year : Int) (lat lon : Rat)
    (dest : String) (m : String) (ev : List Event)
    (h : get_era5_gee env year lat lon dest = .ok (m, ev)) :
    ∀ e ∈ ev, ∀ p, writeTarget e = some p → env.fileExists p = false := by
  unfold get_era5_gee at h
  by_cases hex : env.fileExists (era5CsvName env dest lat lon year) = true
  · rw [if_pos hex] at h
    cases h
    intro e he p hp
    simp only [List.mem_singleton] at he
    rw [he] at hp
    cases hp
  · rw [if_neg hex] at h
    cases helev : env.eeData "elevation" with
    | none => rw [helev] at h; cases h
    | some elev =>
      rw [helev] at h
      cases h
      intro e he p hp
      rcases List.mem_append.mp he with h1 | h2
      · rcases List.mem_append.mp h1 with h3 | h4
        · simp only [List.mem_singleton] at h3
          rw [h3] at hp
          cases hp
        · rcases List.mem_append.mp h4 with h5 | h6
          · obtain ⟨band, _, hband⟩ := List.mem_map.mp h5
            rw [← hband] at hp
            cases hp
          · simp only [List.mem_singleton] at h6
            rw [h6] at hp
            cases hp
      · simp only [List.mem_singleton] at h2
        rw [h2] at hp
        cases hp
        simpa using hex

/-- Claim C2: caching is exactly a file-existence check — when the
destination CSV exists `get_era5_gee` returns its path with no download
and no write, when the local ensemble `.npz` exists `create_ensemble`
returns its loaded contents with no other operation, and on every
completed run the only file ever written over an existing file is the
scratch agromanagement file: cache files are written only when absent,
and nothing is evicted. -/
theorem caching_is_file_existence (env : Env) (year : Int) (lat lon : Rat)
    (dest : String) (en_size : Nat) (pf cf soil : String) (co2 rdm : Rat)
    (pot : Bool) :
    (env.fileExists (era5CsvName env dest lat lon year) = true →
      get_era5_gee env year lat lon dest =
        .ok (era5CsvName env dest lat lon year,
          [.existsCheck (era5CsvName env dest lat lon year)])) ∧
    (env.fileExists (ensembleFname env year lon lat en_size) = true →
      create_ensemble env lat lon year en_size pf cf soil co2 rdm pot =
        .ok (.npz (env.npzLoad (ensembleFname env year lon lat en_size)),
          [.existsCheck (ensembleFname env year lon lat en_size),
           .npzLoad (ensembleFname env year lon lat en_size)])) ∧
    (∀ res tr,
      create_ensemble env lat lon year en_size pf cf soil co2 rdm pot =
        .ok (res, tr) →
      ∀ e ∈ tr, ∀ p, writeTarget e = some p →
        p = "data/temporal.amgt" ∨ env.fileExists p = false) := by
  refine ⟨get_era5_gee_hit env year lat lon dest, ?_, ?_⟩
  · intro h
    unfold create_ensemble
    rw [if_pos h]
  · intro res tr h e he p hp
    unfold create_ensemble at h
    dsimp only at h
    by_cases hex :
        env.fileExists (ensembleFname env year lon lat en_size) = true
    · rw [if_pos hex] at h
      cases h
      rcases List.mem_cons.mp he with rfl | he2
      · cases hp
      · simp only [List.mem_singleton] at he2
        rw [he2] at hp
        cases hp
    · rw [if_neg hex] at h
      cases hjas : get_ensemble_jasmin env year lat lon jasminBase with
      | error er => rw [hjas] at h; cases h
      | ok pr =>
        rw [hjas] at h
        obtain ⟨ropt, jev⟩ := pr
        have hjev := get_ensemble_jasmin_ok_events env year lat lon
          jasminBase ropt jev hjas
        cases ropt with
        | some d =>
          cases h
          rcases List.mem_append.mp he with h1 | h2
          · simp only [List.mem_singleton] at h1
            rw [h1] at hp
            cases hp
          · obtain ⟨u, hu⟩ := hjev e h2
            rw [hu] at hp
            cases hp
        | none =>
          dsimp only at h
          cases hmet : get_era5_gee env year lat lon "./" with
          | error er => rw [hmet] at h; cases h
          | ok mw =>
            rw [hmet] at h
            obtain ⟨meteo, mev⟩ := mw
            dsimp only at h
            cases hdraw : drawAll env
                (define_prior_distribution (env.paramRows pf)).1
                (define_prior_distribution (env.paramRows pf)).2.2.1
                (define_prior_distribution (env.paramRows pf)).2.2.2.2.2
                en_size
                (define_prior_distribution (env.paramRows pf)).2.1 with
            | error er => rw [hdraw] at h; cases h
            | ok zw =>
              rw [hdraw] at h
              obtain ⟨z, dev⟩ := zw
              dsimp only at h
              cases hsamp : ensembleSamples
                  (define_prior_distribution (env.paramRows pf)).2.1
                  (define_prior_distribution (env.paramRows pf)).2.2.2.2.1
                  z (List.range en_size) with
              | error er => rw [hsamp] at h; cases h
              | ok samples =>
                rw [hsamp] at h
                dsimp only at h
                cases hsim : mapCollect
                    (fun dd => wofost_parameter_sweep_func env year dd
                      meteo 20 cf soil co2 rdm pot) samples with
                | error er => rw [hsim] at h; cases h
                | ok rw2 =>
                  rw [hsim] at h
                  obtain ⟨results, sev⟩ := rw2
                  dsimp only at h
                  cases h
                  rcases List.mem_append.mp he with h1 | hsev
                  · rcases List.mem_append.mp h1 with h2 | hdev
                    · rcases List.mem_append.mp h2 with h3 | hpr
                      · rcases List.mem_append.mp h3 with h4 | hmev
                        · rcases List.mem_append.mp h4 with h5 | hjev2
                          · simp only [List.mem_singleton] at h5
                            rw [h5] at hp
                            cases hp
                          · obtain ⟨u, hu⟩ := hjev e hjev2
                            rw [hu] at hp
                            cases hp
                        · right
                          exact get_era5_gee_ok_writes env year lat lon
                            "./" meteo mev hmet e hmev p hp
                      · simp only [List.mem_singleton] at hpr
                        rw [hpr] at hp
                        cases hp
                    · obtain ⟨c, m2, hcm⟩ := drawAll_ok_events env _ _ _
                        en_size _ z dev hdraw e hdev
                      rw [hcm] at hp
                      cases hp
                  · left
                    have := mapCollect_ok_events
                      (fun dd => wofost_parameter_sweep_func env year dd
                        meteo 20 cf soil co2 rdm pot)
                      (fun e2 => ∀ p2, writeTarget e2 = some p2 →
                        p2 = "data/temporal.amgt")
                      (fun dd b ev1 hdd e2 he2 => by
                        obtain ⟨c, hc⟩ := wofost_sweep_ok_events env year
                          dd meteo 20 cf soil co2 rdm pot b ev1 hdd e2 he2
                        intro p2 hp2
                        rw [hc] at hp2
                        cases hp2
                        rfl)
                      samples results sev hsim e hsev
                    exact this p hp

/-- Witness for C2: with the ensemble file present, `create_ensemble`
just loads it, with no network event. -/
theorem caching_is_file_existence_witness :
    create_ensemble testEnvHit 0 0 2021 1 "p" "c" "s" 400 100 false =
      .ok (.npz (testEnvHit.npzLoad (ensembleFname testEnvHit 2021 0 0 1)),
        [.existsCheck (ensembleFname testEnvHit 2021 0 0 1),
         .npzLoad (ensembleFname testEnvHit 2021 0 0 1)]) :=
  (caching_is_file_existence testEnvHit 2021 0 0 "d/" 1 "p" "c" "s" 400 100
    false).2.1 rfl

/-- Claim C1: on a double cache miss `create_ensemble` performs, in
order: the local `.npz` check, the JASMIN listing fetch, the
EarthEngine meteo fetch and CSV write (`get_era5_gee`), the parameter
file read (`define_prior_distribution`), one `rvs` draw per parameter,
and one simulation per sample through the parallel map, returning the
list of per-sample simulation results. -/
theorem create_ensemble_pipeline (env : Env) (lat lon : Rat) (year : Int)
    (en_size : Nat) (pf cf soil : String) (co2 rdm : Rat) (pot : Bool)
    (meteo : String) (mev jev : List Event) (z : List (List Rat))
    (dev : List Event) (samples : List (List (String × PVal)))
    (results : List SimResult) (sev : List Event)
    (hlocal : env.fileExists (ensembleFname env year lon lat en_size) =
      false)
    (hjas : get_ensemble_jasmin env year lat lon jasminBase =
      .ok (none, jev))
    (hmet : get_era5_gee env year lat lon "./" = .ok (meteo, mev))
    (hdraw : drawAll env (define_prior_distribution (env.paramRows pf)).1
      (define_prior_distribution (env.paramRows pf)).2.2.1
      (define_prior_distribution (env.paramRows pf)).2.2.2.2.2 en_size
      (define_prior_distribution (env.paramRows pf)).2.1 = .ok (z, dev))
    (hsamp : ensembleSamples
      (define_prior_distribution (env.paramRows pf)).2.1
      (define_prior_distribution (env.paramRows pf)).2.2.2.2.1 z
      (List.range en_size) = .ok samples)
    (hsim : mapCollect (fun dd => wofost_parameter_sweep_func env year dd
      meteo 20 cf soil co2 rdm pot) samples = .ok (results, sev)) :
    create_ensemble env lat lon year en_size pf cf soil co2 rdm pot =
      .ok (.sims results,
        [.existsCheck (ensembleFname env year lon lat en_size)] ++ jev ++
          mev ++ [.paramRead pf] ++ dev ++ sev) ∧
    samples.length = en_size ∧
    results.length = en_size ∧
    (∀ i, i < en_size → ∃ r ev1,
      wofost_parameter_sweep_func env year (samples[i]!) meteo 20 cf soil
        co2 rdm pot = .ok (r, ev1) ∧ results[i]! = r) := by
  have hslen : samples.length = en_size := by
    have := ensembleSamples_ok_length _ _ _ _ _ hsamp
    simpa using this
  have hrlen : results.length = en_size := by
    rw [← hslen]
    exact mapCollect_ok_length _ samples results sev hsim
  refine ⟨?_, hslen, hrlen, ?_⟩
  · unfold create_ensemble
    dsimp only
    rw [if_neg (by simp [hlocal]), hjas]
    dsimp only
    rw [hmet]
    dsimp only
    rw [hdraw]
    dsimp only
    rw [hsamp]
    dsimp only
    rw [hsim]
  · intro i hi
    have := mapCollect_ok_getElem _ samples results sev hsim i
      (by rw [hslen]; exact hi)
    simpa using this

/-- Witness for C1: a full fresh run of the pipeline in the concrete
environment, with one ensemble member. -/
theorem create_ensemble_pipeline_witness :
    create_ensemble testEnv 0 0 2021 1 "p.csv" "c" "s" 400 100 false =
      .ok (.sims [⟨8⟩],
        [.existsCheck (ensembleFname testEnv 2021 0 0 1)] ++
          [.httpGet jasminBase] ++
          ([.existsCheck (era5CsvName testEnv "./" 0 0 2021)] ++
            (era5Parameters.map Event.eeDownload ++
              [.eeDownload "elevation"]) ++
            [.csvWrite (era5CsvName testEnv "./" 0 0 2021)]) ++
          [.paramRead "p.csv"] ++
          [.rvsDraw "SDOY" 1, .rvsDraw "AMAXTB_000" 1,
           .rvsDraw "AMAXTB_150" 1] ++
          [.amgtWrite "data/temporal.amgt"
            (agroText ⟨2021, 6, 29⟩ ⟨2021, 11, 30⟩)]) := by
  have h := (create_ensemble_pipeline testEnv 0 0 2021 1 "p.csv" "c" "s"
    400 100 false
    (era5CsvName testEnv "./" 0 0 2021)
    ([.existsCheck (era5CsvName testEnv "./" 0 0 2021)] ++
      (era5Parameters.map Event.eeDownload ++ [.eeDownload "elevation"]) ++
      [.csvWrite (era5CsvName testEnv "./" 0 0 2021)])
    [.httpGet jasminBase]
    [[(180 : Rat) * 1], [(180 : Rat) * 1], [(180 : Rat) * 1]]
    [.rvsDraw "SDOY" 1, .rvsDraw "AMAXTB_000" 1, .rvsDraw "AMAXTB_150" 1]
    [[("SDOY", .num ((180 : Rat) * 1)),
      ("AMAXTB_000", .num ((180 : Rat) * 1)),
      ("AMAXTB_150", .num ((180 : Rat) * 1)),
      ("AMAXTB", .table [0, (180 : Rat) * 1, 1.25, (180 : Rat) * 1, 1.5,
        (180 : Rat) * 1])]]
    [⟨8⟩]
    [.amgtWrite "data/temporal.amgt" (agroText ⟨2021, 6, 29⟩
      ⟨2021, 11, 30⟩)]
    rfl rfl (by with_unfolding_all decide) (by with_unfolding_all decide)
    (by with_unfolding_all decide) (by with_unfolding_all decide)).1
  exact h

/-- Claim C5: the ensemble run is an order-preserving parallel map: on a
double cache miss the returned list equals the sequential loop that
applies `wofost_parameter_sweep_func` (with the same year, meteo file,
soil, co2, rdmsol and potential arguments) to each sampled parameter
dictionary in turn, has length `en_size`, and its i-th element is the
simulation output of the i-th sample. -/
theorem ensemble_run_is_sequential_map (env : Env) (lat lon : Rat)
    (year : Int) (en_size : Nat) (pf cf soil : String) (co2 rdm : Rat)
    (pot : Bool) (meteo : String) (mev jev : List Event)
    (z : List (List Rat)) (dev : List Event)
    (samples : List (List (String × PVal))) (results : List SimResult)
    (sev : List Event)
    (hlocal : env.fileExists (ensembleFname env year lon lat en_size) =
      false)
    (hjas : get_ensemble_jasmin env year lat lon jasminBase =
      .ok (none, jev))
    (hmet : get_era5_gee env year lat lon "./" = .ok (meteo, mev))
    (hdraw : drawAll env (define_prior_distribution (env.paramRows pf)).1
      (define_prior_distribution (env.paramRows pf)).2.2.1
      (define_prior_distribution (env.paramRows pf)).2.2.2.2.2 en_size
      (define_prior_distribution (env.paramRows pf)).2.1 = .ok (z, dev))
    (hsamp : ensembleSamples
      (define_prior_distribution (env.paramRows pf)).2.1
      (define_prior_distribution (env.paramRows pf)).2.2.2.2.1 z
      (List.range en_size) = .ok samples)
    (hsim : mapCollect (fun dd => wofost_parameter_sweep_func env year dd
      meteo 20 cf soil co2 rdm pot) samples = .ok (results, sev)) :
    create_ensemble env lat lon year en_size pf cf soil co2 rdm pot =
      .ok (.sims results,
        [.existsCheck (ensembleFname env year lon lat en_size)] ++ jev ++
          mev ++ [.paramRead pf] ++ dev ++ sev) ∧
    seqRun (fun dd => wofost_parameter_sweep_func env year dd meteo 20 cf
      soil co2 rdm pot) samples = .ok (results, sev) ∧
    results.length = en_size ∧
    (∀ i, i < en_size → ∃ r ev1,
      wofost_parameter_sweep_func env year (samples[i]!) meteo 20 cf soil
        co2 rdm pot = .ok (r, ev1) ∧ results[i]! = r) := by
  have hslen : samples.length = en_size := by
    have := ensembleSamples_ok_length _ _ _ _ _ hsamp
    simpa using this
  have hrlen : results.length = en_size := by
    rw [← hslen]
    exact mapCollect_ok_length _ samples results sev hsim
  refine ⟨?_, ?_, hrlen, ?_⟩
  · unfold create_ensemble
    dsimp only
    rw [if_neg (by simp [hlocal]), hjas]
    dsimp only
    rw [hmet]
    dsimp only
    rw [hdraw]
    dsimp only
    rw [hsamp]
    dsimp only
    rw [hsim]
  · rw [seqRun_eq_mapCollect]
    exact hsim
  · intro i hi
    have := mapCollect_ok_getElem _ samples results sev hsim i
      (by rw [hslen]; exact hi)
    simpa using this

/-- Witness for C5: the sequential loop over the one concrete sample
returns the same single result as the parallel map. -/
theorem ensemble_run_is_sequential_map_witness :
    seqRun (fun dd => wofost_parameter_sweep_func testEnv 2021 dd
        (era5CsvName testEnv "./" 0 0 2021) 20 "c" "s" 400 100 false)
      [[("SDOY", .num ((180 : Rat) * 1)),
        ("AMAXTB_000", .num ((180 : Rat) * 1)),
        ("AMAXTB_150", .num ((180 : Rat) * 1)),
        ("AMAXTB", .table [0, (180 : Rat) * 1, 1.25, (180 : Rat) * 1, 1.5,
          (180 : Rat) * 1])]] =
      .ok ([⟨8⟩],
        [.amgtWrite "data/temporal.amgt"
          (agroText ⟨2021, 6, 29⟩ ⟨2021, 11, 30⟩)]) :=
  (ensemble_run_is_sequential_map testEnv 0 0 2021 1 "p.csv" "c" "s" 400
    100 false
    (era5CsvName testEnv "./" 0 0 2021)
    ([.existsCheck (era5CsvName testEnv "./" 0 0 2021)] ++
      (era5Parameters.map Event.eeDownload ++ [.eeDownload "elevation"]) ++
      [.csvWrite (era5CsvName testEnv "./" 0 0 2021)])
    [.httpGet jasminBase]
    [[(180 : Rat) * 1], [(180 : Rat) * 1], [(180 : Rat) * 1]]
    [.rvsDraw "SDOY" 1, .rvsDraw "AMAXTB_000" 1, .rvsDraw "AMAXTB_150" 1]
    [[("SDOY", .num ((180 : Rat) * 1)),
      ("AMAXTB_000", .num ((180 : Rat) * 1)),
      ("AMAXTB_150", .num ((180 : Rat) * 1)),
      ("AMAXTB", .table [0, (180 : Rat) * 1, 1.25, (180 : Rat) * 1, 1.5,
        (180 : Rat) * 1])]]
    [⟨8⟩]
    [.amgtWrite "data/temporal.amgt" (agroText ⟨2021, 6, 29⟩
      ⟨2021, 11, 30⟩)]
    rfl rfl (by with_unfolding_all decide) (by with_unfolding_all decide)
    (by with_unfolding_all decide) (by with_unfolding_all decide)).2.1

end WofostUtils
